import Mathlib

/-!
Verification development for the routing-cube network simulator
(`network/faces.py`, `network/routing_cube.py`, `network/network_grid.py`,
`network/netstats.py`, `network/sim/recipe.py`, `gui/netgrid_model.py`,
`routing_algorithms/bellmanford.py`).

The Python program is shallowly embedded: Python objects become Lean
structures, object identity and in-place mutation are modelled with explicit
heaps (`faceHeap` for `Face` objects, `cubeHeap` for `RoutingCube` objects)
indexed by allocation order, and Python exceptions become explicit error
flags (`Bool` / `Option`) threaded through the affected operations.
Counters are Python `int`s that only ever grow from 0 here, so they are
modelled as `Nat`; coordinates and recipe arguments are `Int`.
-/

set_option linter.unusedVariables false

namespace NetSim

/-- `faces.Direction`: enum with values UP=0, DOWN=1, WEST=2, EAST=3,
NORTH=4, SOUTH=5. -/
inductive Direction : Type
  | UP
  | DOWN
  | WEST
  | EAST
  | NORTH
  | SOUTH
deriving DecidableEq, Repr

/-- `Direction.value` of the Python enum. -/
def Direction.val : Direction → Nat
  | .UP => 0
  | .DOWN => 1
  | .WEST => 2
  | .EAST => 3
  | .NORTH => 4
  | .SOUTH => 5

/-- `list(Direction)` in enum order, i.e. the index order of the
`Faces.faces` list. -/
def Direction.all : List Direction :=
  [.UP, .DOWN, .WEST, .EAST, .NORTH, .SOUTH]

/-- The six-slot container `faces.Faces.faces` (a Python list of length 6
indexed by `Direction.value`), with one field per slot. -/
structure Faces (β : Type) where
  up : β
  down : β
  west : β
  east : β
  north : β
  south : β
deriving DecidableEq, Repr

/-- Read the slot for a direction (`self.faces[direction.value]`). -/
def Faces.get {β : Type} (f : Faces β) : Direction → β
  | .UP => f.up
  | .DOWN => f.down
  | .WEST => f.west
  | .EAST => f.east
  | .NORTH => f.north
  | .SOUTH => f.south

/-- `Faces.set_face`: overwrite the slot for a direction. -/
def Faces.set {β : Type} (f : Faces β) : Direction → β → Faces β
  | .UP, b => { f with up := b }
  | .DOWN, b => { f with down := b }
  | .WEST, b => { f with west := b }
  | .EAST, b => { f with east := b }
  | .NORTH, b => { f with north := b }
  | .SOUTH, b => { f with south := b }

/-- Build a `Faces` container from a function on directions. -/
def Faces.ofFn {β : Type} (g : Direction → β) : Faces β :=
  ⟨g .UP, g .DOWN, g .WEST, g .EAST, g .NORTH, g .SOUTH⟩

/-- `routing_cube.NodeDiagnostics`: the per-cube statistics dataclass.
These are exactly the fields declared in the source; in particular there is
no `total_cycle_mem`, `max_mem` or `correctly_routed_pkts_this_cycle`
field. -/
structure NodeDiagnostics where
  num_pkts_sent : Nat := 0
  num_pkts_sent_this_cycle : Nat := 0
  num_pkts_received : Nat := 0
  num_pkts_received_this_cycle : Nat := 0
  num_pkts_dropped : Nat := 0
  num_pkts_dropped_this_cycle : Nat := 0
  current_q_len : Nat := 0
  highest_q_len : Nat := 0
  is_robot : Bool := false
  has_packet : Bool := false
deriving DecidableEq, Repr

/-- `NodeDiagnostics.reset_cycle_dependent_stats`. -/
def NodeDiagnostics.reset_cycle_dependent_stats (s : NodeDiagnostics) :
    NodeDiagnostics :=
  { s with
    num_pkts_sent_this_cycle := 0
    num_pkts_received_this_cycle := 0
    num_pkts_dropped_this_cycle := 0 }

/-- `netstats.NetworkDiagnostics`: the network-wide statistics dataclass. -/
structure NetworkDiagnostics where
  total_pkts_sent : Nat := 0
  total_pkts_sent_this_cycle : Nat := 0
  total_pkts_received : Nat := 0
  total_pkts_received_this_cycle : Nat := 0
  total_pkts_dropped : Nat := 0
  total_pkts_dropped_this_cycle : Nat := 0
  total_pkts_queued : Nat := 0
  correctly_routed_pkts : Nat := 0
  max_total_pkts_sent : Nat := 0
  max_pkts_sent_this_cycle : Nat := 0
  max_total_pkts_received : Nat := 0
  max_pkts_received_this_cycle : Nat := 0
  max_total_pkts_dropped : Nat := 0
  max_pkts_dropped_this_cycle : Nat := 0
  max_node_memory_usage : Nat := 0
  max_node_memory_usage_this_cycle : Nat := 0
  max_current_q_len : Nat := 0
  max_highest_q_len : Nat := 0
deriving DecidableEq, Repr

/-- `NetworkDiagnostics.reset_cycle_dependent_stats`. -/
def NetworkDiagnostics.reset_cycle_dependent_stats (s : NetworkDiagnostics) :
    NetworkDiagnostics :=
  { s with
    total_pkts_sent_this_cycle := 0
    total_pkts_received_this_cycle := 0
    total_pkts_dropped_this_cycle := 0
    total_pkts_queued := 0
    max_pkts_sent_this_cycle := 0
    max_pkts_received_this_cycle := 0
    max_pkts_dropped_this_cycle := 0
    max_node_memory_usage_this_cycle := 0
    max_current_q_len := 0 }

/-- `NetworkDiagnostics.integrate_node_stats` (netstats.py lines 53-85).

The source first performs the updates of lines 55-61 by in-place mutation,
then at line 62 evaluates `nodestats.total_cycle_mem`.  `NodeDiagnostics`
has no attribute `total_cycle_mem` (nor `max_mem`, line 63, nor
`correctly_routed_pkts_this_cycle`, line 64), so that read raises
`AttributeError`; everything from line 62 on never executes.  The result is
the partially updated aggregate together with `true` = "raised
AttributeError".  Note line 57 adds `num_pkts_sent_this_cycle` (not
`num_pkts_received_this_cycle`) into `total_pkts_received`, exactly as the
source does. -/
def NetworkDiagnostics.integrate_node_stats (s : NetworkDiagnostics)
    (nodestats : NodeDiagnostics) : NetworkDiagnostics × Bool :=
  ({ s with
      total_pkts_sent := s.total_pkts_sent + nodestats.num_pkts_sent_this_cycle
      total_pkts_sent_this_cycle :=
        s.total_pkts_sent_this_cycle + nodestats.num_pkts_sent_this_cycle
      total_pkts_received :=
        s.total_pkts_received + nodestats.num_pkts_sent_this_cycle
      total_pkts_received_this_cycle :=
        s.total_pkts_received_this_cycle + nodestats.num_pkts_received_this_cycle
      total_pkts_dropped :=
        s.total_pkts_dropped + nodestats.num_pkts_dropped_this_cycle
      total_pkts_dropped_this_cycle :=
        s.total_pkts_dropped_this_cycle + nodestats.num_pkts_dropped_this_cycle
      total_pkts_queued := s.total_pkts_queued + nodestats.current_q_len },
   true)

/-- `routing_cube.RoutingCube.MAX_Q_LEN` (class constant, default 64;
configurable, cf. spec scenario 4 which sets it to 4).  The queue bound is
passed explicitly to the operations that consult it. -/
def RoutingCube.MAX_Q_LEN : Nat := 64

/-- `routing_cube.RoutingCube`.  `faces` holds the heap indices of the six
owned inbound `Face` buffers; `ll_references` holds optional heap indices
of neighbouring cubes' inbound faces (`None` = no neighbour wired).
`packets` is the contents of the `queue.Queue` `_packets` (head = front);
its elements are the `(packet, rx_direction)` pairs that `flush_buffers`
enqueues.  `stats` is the private `_stats` field. -/
structure RoutingCube (α δ : Type) where
  position : Int × Int × Int
  id : Int
  faces : Faces Nat
  ll_references : Faces (Option Nat)
  packets : List (α × Direction)
  data : δ
  stats : NodeDiagnostics
deriving DecidableEq, Repr

/-- The `RoutingCube.stats` property getter: refreshes `has_packet` and
`current_q_len` from the queue before exposing `_stats`. -/
def RoutingCube.statsProp {α δ : Type} (c : RoutingCube α δ) :
    NodeDiagnostics :=
  { c.stats with
    has_packet := !c.packets.isEmpty
    current_q_len := c.packets.length }

/-- `RoutingCube.get_packet`: pops the front of the queue, returning the
`(packet, rx_direction)` pair; on an empty queue returns `(None, None)`
(modelled as `none`) and changes nothing. -/
def RoutingCube.get_packet {α δ : Type} (c : RoutingCube α δ) :
    RoutingCube α δ × Option (α × Direction) :=
  match c.packets with
  | [] => (c, none)
  | p :: rest => ({ c with packets := rest }, some p)

/-- `RoutingCube.has_packet`. -/
def RoutingCube.has_packet {α δ : Type} (c : RoutingCube α δ) : Bool :=
  !c.packets.isEmpty

/-- `RoutingCube.connected_in_direction`. -/
def RoutingCube.connected_in_direction {α δ : Type} (c : RoutingCube α δ)
    (d : Direction) : Bool :=
  (c.ll_references.get d).isSome

/-- `network_grid.NetworkGrid`.  Python object graphs are modelled with two
heaps: `faceHeap` maps a face id to that `Face`'s `_rx_buffer`, and
`cubeHeap` maps a cube id (allocation index) to the `RoutingCube` record.
`node_map`, `node_list` and `robot_list` hold cube ids, mirroring the
shared references of the source (`node_map` is the position dict,
`robot_list` the ids of the cubes owned by `Robot` wrappers).  `next_id`
models the class counter `RoutingCube._NEXT_ID`. -/
structure NetworkGrid (α δ : Type) where
  faceHeap : List (List α)
  cubeHeap : List (RoutingCube α δ)
  node_map : List ((Int × Int × Int) × Nat)
  node_list : List Nat
  robot_list : List Nat
  layer_entry_points : List (Int × Nat)
  layer_bounds : List (Int × (Int × Int × Int × Int))
  stats : NetworkDiagnostics
  next_id : Int
deriving DecidableEq, Repr

/-- The empty grid produced by `NetworkGrid.__init__`. -/
def NetworkGrid.init {α δ : Type} : NetworkGrid α δ :=
  ⟨[], [], [], [], [], [], [], {}, 0⟩

namespace NetworkGrid

variable {α δ : Type}

/-- Look up a cube record by cube id (dereference a Python object
reference). -/
def cubeAt (g : NetworkGrid α δ) (cid : Nat) : Option (RoutingCube α δ) :=
  g.cubeHeap.get? cid

/-- Overwrite the cube record at a cube id (in-place mutation of the shared
object). -/
def setCubeAt (g : NetworkGrid α δ) (cid : Nat) (c : RoutingCube α δ) :
    NetworkGrid α δ :=
  { g with cubeHeap := g.cubeHeap.set cid c }

/-- Mutate the cube record at a cube id with a pure update function; no-op
when the id is dangling. -/
def modifyCubeAt (g : NetworkGrid α δ) (cid : Nat)
    (f : RoutingCube α δ → RoutingCube α δ) : NetworkGrid α δ :=
  match g.cubeHeap.get? cid with
  | none => g
  | some c => g.setCubeAt cid (f c)

/-- Read a face buffer by face id. -/
def faceAt (g : NetworkGrid α δ) (fid : Nat) : Option (List α) :=
  g.faceHeap.get? fid

/-- `NetworkGrid.get_node`: `self.node_map.get((x, y, z), None)`, resolved
to a cube id. -/
def get_node (g : NetworkGrid α δ) (p : Int × Int × Int) : Option Nat :=
  (g.node_map.find? (fun e => e.1 = p)).map (·.2)

/-- `NetworkGrid.get_node_by_id`: linear scan of `node_list` for the first
cube whose `id` matches. -/
def get_node_by_id (g : NetworkGrid α δ) (i : Int) : Option Nat :=
  g.node_list.find? (fun cid => (g.cubeAt cid).map (·.id) = some i)

/-- `RoutingCube.send_packet` on the cube with id `cid` (routing_cube.py
lines 125-133): unconditionally increments the sent counters, then
`ll_references.add_packet(direction, packet)` appends to the referenced
neighbour face and yields `True`, or yields `False` when no face is wired
in that direction, in which case the dropped counters are also
incremented. -/
def send_packet (g : NetworkGrid α δ) (cid : Nat) (d : Direction) (pkt : α) :
    NetworkGrid α δ × Bool :=
  match g.cubeHeap.get? cid with
  | none => (g, false)
  | some c =>
    let c := { c with stats :=
      { c.stats with
        num_pkts_sent := c.stats.num_pkts_sent + 1
        num_pkts_sent_this_cycle := c.stats.num_pkts_sent_this_cycle + 1 } }
    match c.ll_references.get d with
    | some fid =>
      let g := g.setCubeAt cid c
      ({ g with faceHeap :=
          match g.faceHeap.get? fid with
          | some buf => g.faceHeap.set fid (buf ++ [pkt])
          | none => g.faceHeap },
       true)
    | none =>
      let c := { c with stats :=
        { c.stats with
          num_pkts_dropped := c.stats.num_pkts_dropped + 1
          num_pkts_dropped_this_cycle :=
            c.stats.num_pkts_dropped_this_cycle + 1 } }
      (g.setCubeAt cid c, false)

/-- One iteration of the `for dir, face in enumerate(self.faces)` loop of
`Faces.get_all_packets`, acting on cube `c`'s face in direction `d`:
`face.get_buffered_pkts()` copies and clears the buffer, and each packet
is appended tagged with `Direction(dir)`. -/
def drain_face (c : RoutingCube α δ)
    (acc : NetworkGrid α δ × List (α × Direction)) (d : Direction) :
    NetworkGrid α δ × List (α × Direction) :=
  let fid := c.faces.get d
  match acc.1.faceHeap.get? fid with
  | none => acc
  | some buf =>
    ({ acc.1 with faceHeap := acc.1.faceHeap.set fid [] },
     acc.2 ++ buf.map (fun p => (p, d)))

/-- `Faces.get_all_packets` for the cube with id `cid`: drain the six
inbound face buffers in `Direction.value` order, tagging every packet with
the direction of the face it sat in. -/
def get_all_packets (g : NetworkGrid α δ) (cid : Nat) :
    NetworkGrid α δ × List (α × Direction) :=
  match g.cubeHeap.get? cid with
  | none => (g, [])
  | some c => Direction.all.foldl (drain_face c) (g, [])

/-- One iteration of the `for pkt in received` loop of
`RoutingCube.flush_buffers`: count the arrival, `put_nowait` into the
bounded queue (dropping and counting on `queue.Full`), then track the
highest recorded queue length. -/
def flush_one (maxQ : Nat) (c : RoutingCube α δ) (p : α × Direction) :
    RoutingCube α δ :=
  let c := { c with stats :=
    { c.stats with
      num_pkts_received := c.stats.num_pkts_received + 1
      num_pkts_received_this_cycle :=
        c.stats.num_pkts_received_this_cycle + 1 } }
  let c :=
    if c.packets.length < maxQ then
      { c with packets := c.packets ++ [p] }
    else
      { c with stats :=
        { c.stats with
          num_pkts_dropped := c.stats.num_pkts_dropped + 1
          num_pkts_dropped_this_cycle :=
            c.stats.num_pkts_dropped_this_cycle + 1 } }
  if c.packets.length > c.stats.highest_q_len then
    { c with stats := { c.stats with highest_q_len := c.packets.length } }
  else c

/-- `RoutingCube.flush_buffers` for the cube with id `cid`: drain all
inbound faces, then run the receive loop over the drained packets. -/
def flush_buffers (maxQ : Nat) (g : NetworkGrid α δ) (cid : Nat) :
    NetworkGrid α δ :=
  let (g, received) := g.get_all_packets cid
  g.modifyCubeAt cid (fun c => received.foldl (flush_one maxQ) c)

end NetworkGrid

/-- A routing-algorithm hook (`RoutingAlgorithm.route` / `power_on`, or
`RobotAlgorithm.step` / `power_on` acting through `robot.cube`).  The hook
may read and rewrite the cube it is handed (its `get_packet` calls are
reflected in the returned cube) and emit a list of `send_packet(dir, pkt)`
calls, which the grid applies to the cube with the source semantics of
`RoutingCube.send_packet`. -/
def RouteFn (α δ : Type) : Type :=
  RoutingCube α δ → RoutingCube α δ × List (Direction × α)

namespace NetworkGrid

variable {α δ : Type}

/-- Run an algorithm hook on the cube with id `cid`: install the rewritten
cube, then perform its `send_packet` calls in order. -/
def applyRouteFnAt (f : RouteFn α δ) (g : NetworkGrid α δ) (cid : Nat) :
    NetworkGrid α δ :=
  match g.cubeHeap.get? cid with
  | none => g
  | some c =>
    let fc := f c
    let g := g.setCubeAt cid fc.1
    fc.2.foldl (fun g s => (send_packet g cid s.1 s.2).1) g

/-- `RoutingCube.step`: reset the cycle-dependent diagnostics, then invoke
`routing_algorithm.route(self)`. -/
def stepCube (route : RouteFn α δ) (g : NetworkGrid α δ) (cid : Nat) :
    NetworkGrid α δ :=
  let g := g.modifyCubeAt cid
    (fun c => { c with stats := c.stats.reset_cycle_dependent_stats })
  applyRouteFnAt route g cid

/-- The `for node in self.node_list` loop of
`NetworkGrid.update_net_stats`.  Reading `node.stats` (a property) first
refreshes the node's `_stats` in place; `integrate_node_stats` then raises
`AttributeError` after its partial update (see
`NetworkDiagnostics.integrate_node_stats`), which aborts the loop.  A
dangling cube id (impossible in the source, where `node_list` holds object
references) is skipped. -/
def integrateLoop (g : NetworkGrid α δ) : List Nat → NetworkGrid α δ × Bool
  | [] => (g, false)
  | cid :: rest =>
    match g.cubeHeap.get? cid with
    | none => integrateLoop g rest
    | some c =>
      let c' := { c with stats := c.statsProp }
      let g := g.setCubeAt cid c'
      let si := g.stats.integrate_node_stats c'.stats
      let g := { g with stats := si.1 }
      if si.2 then (g, true) else integrateLoop g rest

/-- `NetworkGrid.update_net_stats`: reset the cycle-dependent aggregate
totals, then fold every node's stats into the aggregate.  The `Bool`
result records whether the fold raised (`true` = `AttributeError`
propagated out, leaving the returned partially-updated state behind). -/
def update_net_stats (g : NetworkGrid α δ) : NetworkGrid α δ × Bool :=
  let g := { g with stats := g.stats.reset_cycle_dependent_stats }
  integrateLoop g g.node_list

/-- `NetworkGrid.step`: route phase over `node_list`, flush phase over
`node_list`, robot phase over `robot_list`, then the diagnostics rollup.
The `Bool` reports whether `update_net_stats` raised; the state component
is the grid as left behind by the mutations performed up to that point
(Python state persists when the exception propagates out of `step`). -/
def step (maxQ : Nat) (route roboStep : RouteFn α δ) (g : NetworkGrid α δ) :
    NetworkGrid α δ × Bool :=
  let g := g.node_list.foldl (stepCube route) g
  let g := g.node_list.foldl (flush_buffers maxQ) g
  let g := g.robot_list.foldl (applyRouteFnAt roboStep) g
  update_net_stats g

end NetworkGrid

/-- Set the value for a key in an association list modelling a Python
dict: replace in place if present, else append. -/
def assocSet {κ β : Type} [DecidableEq κ] :
    List (κ × β) → κ → β → List (κ × β)
  | [], k, b => [(k, b)]
  | e :: rest, k, b =>
    if e.1 = k then (k, b) :: rest else e :: assocSet rest k b

/-- Dict lookup in an association list. -/
def assocGet {κ β : Type} [DecidableEq κ] (l : List (κ × β)) (k : κ) :
    Option β :=
  (l.find? (fun e => e.1 = k)).map (·.2)

namespace NetworkGrid

variable {α δ : Type}

/-- `RoutingCube.__init__` called from `NetworkGrid.add_node` /
`add_robot`: allocate the six owned inbound `Face` objects and the cube
record itself.  `id = None` draws from the `_NEXT_ID` counter.  `d0` is
the initial `data = None` value.  Returns the new cube's id. -/
def allocCube (g : NetworkGrid α δ) (pos : Int × Int × Int)
    (idArg : Option Int) (d0 : δ) : NetworkGrid α δ × Nat :=
  let idg : Int × NetworkGrid α δ :=
    match idArg with
    | none => (g.next_id, { g with next_id := g.next_id + 1 })
    | some i => (i, g)
  let i := idg.1
  let g := idg.2
  let base := g.faceHeap.length
  let cid := g.cubeHeap.length
  let c : RoutingCube α δ :=
    { position := pos
      id := i
      faces := ⟨base, base + 1, base + 2, base + 3, base + 4, base + 5⟩
      ll_references := ⟨none, none, none, none, none, none⟩
      packets := []
      data := d0
      stats := {} }
  ({ g with
      faceHeap := g.faceHeap ++ [[], [], [], [], [], []]
      cubeHeap := g.cubeHeap ++ [c] },
   cid)

/-- The layer bookkeeping block of `NetworkGrid.add_node`
(network_grid.py lines 75-92). -/
def add_node_layers (g : NetworkGrid α δ) (x y z : Int) (cid : Nat) :
    NetworkGrid α δ :=
  match assocGet g.layer_entry_points z with
  | none =>
    { g with
      layer_entry_points := assocSet g.layer_entry_points z cid
      layer_bounds := assocSet g.layer_bounds z (x, x, y, y) }
  | some entryCid =>
    let g :=
      match g.cubeHeap.get? entryCid with
      | none => g
      | some current_entry =>
        if x < current_entry.position.1 ∨ y > current_entry.position.2.1 then
          { g with layer_entry_points := assocSet g.layer_entry_points z cid }
        else g
    match assocGet g.layer_bounds z with
    | none => g
    | some (min_x, max_x, min_y, max_y) =>
      { g with layer_bounds :=
          (assocSet g.layer_bounds z
            (min min_x x, max max_x x, min min_y y, max max_y y)) }

/-- One `if <neighbor> is not None:` wiring block of `add_node`: the
neighbour at `npos` gets its reference slot `dNbr` pointed at the new
node's `dNode` inbound face, and the new node's slot `dNode` is pointed at
the neighbour's `dNbr` inbound face (e.g. for the neighbour above,
`dNbr = DOWN`, `dNode = UP`). -/
def add_node_wire (g : NetworkGrid α δ) (cid : Nat) (npos : Int × Int × Int)
    (dNbr dNode : Direction) : NetworkGrid α δ :=
  match g.get_node npos with
  | none => g
  | some nid =>
    match g.cubeHeap.get? cid, g.cubeHeap.get? nid with
    | some node, some nbr =>
      let g := g.modifyCubeAt nid (fun nb =>
        { nb with ll_references :=
            nb.ll_references.set dNbr (some (node.faces.get dNode)) })
      g.modifyCubeAt cid (fun nd =>
        { nd with ll_references :=
            nd.ll_references.set dNode (some (nbr.faces.get dNbr)) })
    | _, _ => g

/-- `NetworkGrid.add_node(x, y, z, id=None, node=None)`.  `nodeArg` is the
optional pre-built cube (a cube id, as `add_robot` passes the cube it
allocated); when absent a fresh cube is built.  After inserting into
`node_map` and `node_list` and updating the layer bookkeeping, the six
adjacent positions are wired symmetrically and finally
`routing_algorithm.power_on(node)` runs. -/
def add_node (powerOn : RouteFn α δ) (d0 : δ) (g : NetworkGrid α δ)
    (x y z : Int) (idArg : Option Int := none) (nodeArg : Option Nat := none) :
    NetworkGrid α δ :=
  let gc : NetworkGrid α δ × Nat :=
    match nodeArg with
    | some cid => (g, cid)
    | none => allocCube g (x, y, z) idArg d0
  let g := gc.1
  let cid := gc.2
  let g := { g with node_map := assocSet g.node_map (x, y, z) cid }
  let g := { g with node_list := g.node_list ++ [cid] }
  let g := add_node_layers g x y z cid
  let g := add_node_wire g cid (x, y, z + 1) .DOWN .UP
  let g := add_node_wire g cid (x, y, z - 1) .UP .DOWN
  let g := add_node_wire g cid (x, y + 1, z) .SOUTH .NORTH
  let g := add_node_wire g cid (x, y - 1, z) .NORTH .SOUTH
  let g := add_node_wire g cid (x + 1, y, z) .WEST .EAST
  let g := add_node_wire g cid (x - 1, y, z) .EAST .WEST
  applyRouteFnAt powerOn g cid

/-- `NetworkGrid.add_robot(x, y, z, id=None)`: build the cube, wrap it in a
`Robot` appended to `robot_list`, insert it via `add_node` (which runs the
routing algorithm's `power_on`), then run `robot_algorithm.power_on`. -/
def add_robot (powerOn roboPowerOn : RouteFn α δ) (d0 : δ)
    (g : NetworkGrid α δ) (x y z : Int) (idArg : Option Int := none) :
    NetworkGrid α δ :=
  let gc := allocCube g (x, y, z) idArg d0
  let g := gc.1
  let cid := gc.2
  let g := { g with robot_list := g.robot_list ++ [cid] }
  let g := add_node powerOn d0 g x y z idArg (some cid)
  applyRouteFnAt roboPowerOn g cid

/-- One `if <neighbor> is not None:` clearing block of `remove_node`: the
neighbour at `npos` gets its reference slot `dNbr` (the one facing the
removed position) set to `None`. -/
def remove_node_clear (g : NetworkGrid α δ) (npos : Int × Int × Int)
    (dNbr : Direction) : NetworkGrid α δ :=
  match g.get_node npos with
  | none => g
  | some nid =>
    g.modifyCubeAt nid (fun nb =>
      { nb with ll_references := nb.ll_references.set dNbr none })

/-- `NetworkGrid.remove_node(x, y, z)`: no-op when no node is present;
otherwise pop the position from `node_map`, remove the first occurrence of
the node from `node_list`, and clear the six surrounding cubes' references
toward the removed position.  (The source touches neither `robot_list` nor
the layer bookkeeping, and the removed cube's own references are left
behind.) -/
def remove_node (g : NetworkGrid α δ) (x y z : Int) : NetworkGrid α δ :=
  match g.get_node (x, y, z) with
  | none => g
  | some cid =>
    let g := { g with
      node_map := g.node_map.eraseP (fun e => e.1 = ((x, y, z) : Int × Int × Int)) }
    let g := { g with node_list := g.node_list.erase cid }
    let g := remove_node_clear g (x, y, z + 1) .DOWN
    let g := remove_node_clear g (x, y, z - 1) .UP
    let g := remove_node_clear g (x, y + 1, z) .SOUTH
    let g := remove_node_clear g (x, y - 1, z) .NORTH
    let g := remove_node_clear g (x + 1, y, z) .WEST
    let g := remove_node_clear g (x - 1, y, z) .EAST
    g

/-- `NetworkGrid.remove_node_by_id(id)`: resolve the node through
`get_node_by_id` and remove it at its own position; no-op when the id is
unknown. -/
def remove_node_by_id (g : NetworkGrid α δ) (i : Int) : NetworkGrid α δ :=
  match g.get_node_by_id i with
  | none => g
  | some cid =>
    match g.cubeHeap.get? cid with
    | none => g
    | some c => g.remove_node c.position.1 c.position.2.1 c.position.2.2

end NetworkGrid

/-- `sim.recipe.RecipeComm`. -/
inductive RecipeComm : Type
  | ADDN
  | ADDR
  | RMVN
  | SEND
  | WAIT
  | LOOP
  | ENDL
  | PAUSE
deriving DecidableEq, Repr

/-- A recipe command argument: tokens that parse as integers are passed as
integers, otherwise as strings. -/
inductive Arg : Type
  | int (i : Int)
  | str (s : String)
deriving DecidableEq, Repr

/-- `RecipeComm.expected_arg_counts` / `num_args_expected`. -/
def RecipeComm.num_args_expected : RecipeComm → List Nat
  | .ADDN => [3, 4]
  | .ADDR => [3, 4]
  | .RMVN => [3, 1]
  | .SEND => [7, 3]
  | .WAIT => [1]
  | .LOOP => [1]
  | .ENDL => [0]
  | .PAUSE => [0]

/-- `sim.recipe.Recipe`: the interpreter state.  `wait_cycles_remaining`
and `loop_iters_remaining` are Python ints (negative values are
meaningful: a negative LOOP argument loops forever). -/
structure Recipe : Type where
  commands : List RecipeComm
  command_args : List (List Arg)
  idx : Nat
  length : Nat
  wait_cycles_remaining : Int
  loop_iters_remaining : Int
  loop_idx : Nat
  in_loop : Bool
  paused : Bool
deriving DecidableEq, Repr

/-- `Recipe.__init__(commands, command_args)` (for equal-length command and
argument lists; unequal lengths raise `ValueError` at construction and
never yield a `Recipe`). -/
def Recipe.init (cs : List RecipeComm) (as : List (List Arg)) : Recipe :=
  { commands := cs
    command_args := as
    idx := 0
    length := cs.length
    wait_cycles_remaining := 0
    loop_iters_remaining := 0
    loop_idx := 0
    in_loop := false
    paused := false }

/-- `Recipe.is_running`. -/
def Recipe.is_running (r : Recipe) : Bool :=
  decide (r.length > r.idx) && !r.paused

/-- `Recipe.resume`. -/
def Recipe.resume (r : Recipe) : Recipe :=
  { r with paused := false }

/-- `Recipe._check_arg_count` as a predicate (`False` = the source raises
`ValueError`). -/
def Recipe.check_arg_count (comm : RecipeComm) (args : List Arg) : Bool :=
  comm.num_args_expected.contains args.length

/-- `Recipe.handle_comm` over an abstract grid `γ`.  The four grid
commands (ADDN, ADDR, RMVN, SEND) act on the grid through `applyCmd`,
which stands for the corresponding successful `NetworkGrid` method call in
the handler; the interpreter commands mutate only the recipe state.  The
`Option String` result carries a raised exception (the state components
are the objects as left at the raise, since the handlers mutate nothing
before raising). -/
def Recipe.handle_comm {γ : Type} (applyCmd : γ → RecipeComm → List Arg → γ)
    (r : Recipe) (g : γ) (comm : RecipeComm) (args : List Arg) :
    Recipe × γ × Option String :=
  if ¬ Recipe.check_arg_count comm args then
    (r, g, some "ValueError: Invalid number of arguments")
  else
    match comm with
    | .ADDN => (r, applyCmd g .ADDN args, none)
    | .ADDR => (r, applyCmd g .ADDR args, none)
    | .RMVN => (r, applyCmd g .RMVN args, none)
    | .SEND => (r, applyCmd g .SEND args, none)
    | .WAIT =>
      match args with
      | [.int cycles] =>
        ({ r with wait_cycles_remaining := cycles }, g, none)
      | _ => (r, g, some "TypeError")
    | .LOOP =>
      match args with
      | [.int iterations] =>
        if r.in_loop then
          (r, g, some "RuntimeError: Nested loops in recipes not allowed")
        else
          ({ r with
              loop_idx := r.idx
              loop_iters_remaining := iterations
              in_loop := true }, g, none)
      | _ => (r, g, some "TypeError")
    | .ENDL =>
      if ¬ r.in_loop then
        (r, g, some "RuntimeError: Cannot end loop in recipe - no loop was started")
      else if r.loop_iters_remaining = 0 then
        ({ r with in_loop := false }, g, none)
      else
        ({ r with
            loop_iters_remaining := r.loop_iters_remaining - 1
            idx := r.loop_idx }, g, none)
    | .PAUSE => ({ r with paused := true }, g, none)

/-- `Recipe.execute_next(netgrid)`: do nothing unless running; consume a
pending WAIT instead of executing; otherwise handle the command at `idx`
and advance `idx` (the advance is skipped when the handler raises, exactly
as in the source where the exception jumps over `self.idx += 1`). -/
def Recipe.execute_next {γ : Type} (applyCmd : γ → RecipeComm → List Arg → γ)
    (r : Recipe) (g : γ) : Recipe × γ × Option String :=
  if r.is_running then
    if r.wait_cycles_remaining > 0 then
      ({ r with wait_cycles_remaining := r.wait_cycles_remaining - 1 }, g, none)
    else
      match r.commands.get? r.idx, r.command_args.get? r.idx with
      | some comm, some args =>
        let rge := Recipe.handle_comm applyCmd r g comm args
        match rge.2.2 with
        | some e => (rge.1, rge.2.1, some e)
        | none => ({ rge.1 with idx := rge.1.idx + 1 }, rge.2.1, none)
      | _, _ => (r, g, some "IndexError")
  else (r, g, none)

namespace NetGridPresenter

/-- The `while self.recipe.is_running() and num_cycles != 0:` loop of
`NetGridPresenter.run`, for a nonnegative starting `num_cycles` (modelled
as the `Nat` of remaining cycles): execute the next recipe instruction,
step the grid (`gstep`), resume the recipe again when `ignore_pauses` is
set, decrement.  An exception raised by `execute_next` propagates out
immediately. -/
def runLoop {γ : Type} (applyCmd : γ → RecipeComm → List Arg → γ)
    (gstep : γ → γ) (r : Recipe) (g : γ) (n : Nat) (ig : Bool) :
    Recipe × γ × Option String :=
  match n with
  | 0 => (r, g, none)
  | n + 1 =>
    if r.is_running then
      let rge := r.execute_next applyCmd g
      match rge.2.2 with
      | some e => (rge.1, rge.2.1, some e)
      | none =>
        let g1 := gstep rge.2.1
        let r1 := if ig then rge.1.resume else rge.1
        runLoop applyCmd gstep r1 g1 n ig
    else (r, g, none)

/-- `NetGridPresenter.run(num_cycles, ignore_pauses)` with a nonnegative
cycle bound.  With no recipe the method does nothing (in particular it
does not notify observers).  With a recipe it FIRST resumes it ("Resume
recipe if paused"), runs the loop, and then calls `alert_observers()`
exactly once — unless an exception propagated out of the loop, which
skips the notification.  The `Nat` component counts `alert_observers`
calls. -/
def run {γ : Type} (applyCmd : γ → RecipeComm → List Arg → γ)
    (gstep : γ → γ) (recipe : Option Recipe) (g : γ) (n : Nat) (ig : Bool) :
    Option Recipe × γ × Nat × Option String :=
  match recipe with
  | none => (none, g, 0, none)
  | some r =>
    let rge := runLoop applyCmd gstep r.resume g n ig
    match rge.2.2 with
    | some e => (some rge.1, rge.2.1, 0, some e)
    | none => (some rge.1, rge.2.1, 1, none)

end NetGridPresenter

/-- `helpers.determine_tx_pos(my_pos, rx_dir)`. -/
def determine_tx_pos (my_pos : Int × Int × Int) (rx_dir : Direction) :
    Int × Int × Int :=
  let x := my_pos.1
  let y := my_pos.2.1
  let z := my_pos.2.2
  match rx_dir with
  | .UP => (x, y, z + 1)
  | .DOWN => (x, y, z - 1)
  | .WEST => (x - 1, y, z)
  | .EAST => (x + 1, y, z)
  | .NORTH => (x, y + 1, z)
  | .SOUTH => (x, y - 1, z)

/-- `helpers.determine_tx_dir(my_pos, neighbor_pos)`: `None` when the
given position is not axis-adjacent. -/
def determine_tx_dir (my_pos neighbor_pos : Int × Int × Int) :
    Option Direction :=
  if neighbor_pos.1 = my_pos.1 + 1 then some .EAST
  else if neighbor_pos.1 = my_pos.1 - 1 then some .WEST
  else if neighbor_pos.2.1 = my_pos.2.1 + 1 then some .NORTH
  else if neighbor_pos.2.1 = my_pos.2.1 - 1 then some .SOUTH
  else if neighbor_pos.2.2 = my_pos.2.2 + 1 then some .UP
  else if neighbor_pos.2.2 = my_pos.2.2 - 1 then some .DOWN
  else none

/-- `bellmanford.BMF_DEFAULT_LINK_COST`. -/
def BMF_DEFAULT_LINK_COST : Int := 1

/-- The union of `bellmanford` packet classes (`BMFNewNeighborPkt`,
`BMFDistanceVectorPkt`, `BMFDataPkt`), each carrying the `BMFPkt` base
fields `src_addr` and `dest_addr`.  Addresses are modelled as `Int`. -/
inductive BMFPkt (β : Type) : Type
  | newNeighbor (src_addr : Int) (dest_addr : Option Int)
      (link_cost : Int) (ack : Bool)
  | distanceVector (src_addr : Int) (dest_addr : Option Int)
      (vector : List (Int × Int))
  | data (src_addr : Int) (dest_addr : Option Int) (payload : β)
deriving DecidableEq, Repr

/-- `bellmanford.DistanceTbl`: `_distances` maps a destination address to
its row (a map from via-neighbour address to cost);
`_neighbor_addr_pos` maps neighbour addresses to positions. -/
structure DistanceTbl : Type where
  my_addr : Int
  distances : List (Int × List (Int × Int))
  neighbor_addr_pos : List (Int × (Int × Int × Int))
deriving DecidableEq, Repr

/-- `DistanceTbl.__init__`. -/
def DistanceTbl.init (my_addr : Int) : DistanceTbl :=
  { my_addr := my_addr, distances := [], neighbor_addr_pos := [] }

/-- `DistanceTbl.new_neighbor(addr, pos, link_cost)`. -/
def DistanceTbl.new_neighbor (t : DistanceTbl) (addr : Int)
    (pos : Int × Int × Int) (link_cost : Int) : DistanceTbl :=
  let row := (assocGet t.distances addr).getD []
  { t with
    distances := assocSet t.distances addr (assocSet row addr link_cost)
    neighbor_addr_pos := assocSet t.neighbor_addr_pos addr pos }

/-- `DistanceTbl.update(distance_vector, via, via_pos)`: add the neighbour
if unknown, then set `distances[dest][via] = distance + distances[via][via]`
for every entry of the vector whose destination is not this node. -/
def DistanceTbl.update (t : DistanceTbl) (distance_vector : List (Int × Int))
    (via : Int) (via_pos : Int × Int × Int) : DistanceTbl :=
  let t :=
    if (assocGet t.distances via).isNone then
      t.new_neighbor via via_pos BMF_DEFAULT_LINK_COST
    else t
  distance_vector.foldl
    (fun t e =>
      if e.1 ≠ t.my_addr then
        let link_cost_to_via :=
          ((assocGet t.distances via).getD []).lookup via |>.getD 0
        let row := (assocGet t.distances e.1).getD []
        { t with distances :=
            assocSet t.distances e.1 (assocSet row via (e.2 + link_cost_to_via)) }
      else t)
    t

/-- The `for via, cost in dest_row.items()` minimum scan of
`DistanceTbl.next_hop` (first entry wins ties, strict `<` improves). -/
def minVia (row : List (Int × Int)) : Option (Int × Int) :=
  row.foldl
    (fun acc e =>
      match acc with
      | none => some e
      | some vc => if e.2 < vc.2 then some e else some vc)
    none

/-- `DistanceTbl.next_hop(dest)`: returns `my_addr` itself (an address,
`inl`) when `dest` equals it, the position (`inr`) of the cheapest via
neighbour otherwise, or `none` when the destination is unknown.  `dest` is
`Option Int` because `BMFPkt.dest_addr` may be `None`.  A `KeyError` on
`_neighbor_addr_pos` cannot arise from the algorithm's own updates and is
modelled as `none`. -/
def DistanceTbl.next_hop (t : DistanceTbl) (dest : Option Int) :
    Option (Int ⊕ (Int × Int × Int)) :=
  if dest = some t.my_addr then some (.inl t.my_addr)
  else
    let row : List (Int × Int) :=
      match dest with
      | some d => (assocGet t.distances d).getD []
      | none => []
    match minVia row with
    | none => none
    | some vc =>
      match assocGet t.neighbor_addr_pos vc.1 with
      | some p => some (.inr p)
      | none => none

/-- `DistanceTbl.get_distance_vector()`: project the minimum cost per
destination, in insertion order of `_distances`. -/
def DistanceTbl.get_distance_vector (t : DistanceTbl) : List (Int × Int) :=
  t.distances.map (fun e =>
    (e.1, (minVia e.2).map (·.2) |>.getD 0))

/-- `bellmanford.BellmanFordData` (the `RoutingCube.data` payload for this
algorithm). -/
structure BellmanFordData (β : Type) : Type where
  distance_tbl : DistanceTbl
  last_dv : Option (List (Int × Int))
  tx_data : Option (Int × Option Int × β)
deriving DecidableEq, Repr

/-- `BellmanFordData.__init__`. -/
def BellmanFordData.init (β : Type) (my_addr : Int) : BellmanFordData β :=
  { distance_tbl := DistanceTbl.init my_addr, last_dv := none, tx_data := none }

/-- A grid running the Bellman-Ford algorithm. -/
abbrev BMFGrid (β : Type) := NetworkGrid (BMFPkt β) (BellmanFordData β)

namespace BellmanFordRouting

variable {β : Type} [DecidableEq β]

/-- `BellmanFordRouting.got_new_neighbor_notif`: record the neighbour,
and when the notification is not an ack, send it back acknowledged along
the arrival direction. -/
def got_new_neighbor_notif (g : BMFGrid β) (cid : Nat) (src_addr : Int)
    (dest_addr : Option Int) (link_cost : Int) (ack : Bool)
    (rx_dir : Direction) : BMFGrid β :=
  match g.cubeHeap.get? cid with
  | none => g
  | some cube =>
    let neighbor_pos := determine_tx_pos cube.position rx_dir
    let cube := { cube with data :=
      { cube.data with distance_tbl :=
          cube.data.distance_tbl.new_neighbor src_addr neighbor_pos link_cost } }
    let g := g.setCubeAt cid cube
    if ¬ ack then
      match determine_tx_dir cube.position neighbor_pos with
      | some d =>
        (g.send_packet cid d (.newNeighbor cube.id dest_addr link_cost true)).1
      | none => g
    else g

/-- `BellmanFordRouting.update_distance_tbl`: fold the received distance
vector into the cube's table. -/
def update_distance_tbl (g : BMFGrid β) (cid : Nat) (src_addr : Int)
    (vector : List (Int × Int)) (rx_dir : Direction) : BMFGrid β :=
  match g.cubeHeap.get? cid with
  | none => g
  | some cube =>
    let neighbor_pos := determine_tx_pos cube.position rx_dir
    g.setCubeAt cid { cube with data :=
      { cube.data with distance_tbl :=
          cube.data.distance_tbl.update vector src_addr neighbor_pos } }

/-- `BellmanFordRouting.update_neighbors`: broadcast the cube's distance
vector in all six directions, but only when it differs from the last one
sent. -/
def update_neighbors (g : BMFGrid β) (cid : Nat) : BMFGrid β :=
  match g.cubeHeap.get? cid with
  | none => g
  | some cube =>
    let dv := cube.data.distance_tbl.get_distance_vector
    if cube.data.last_dv ≠ some dv then
      let g := Direction.all.foldl
        (fun g d =>
          (g.send_packet cid d (.distanceVector cube.id none dv)).1)
        g
      g.modifyCubeAt cid (fun c =>
        { c with data := { c.data with last_dv := some dv } })
    else g

/-- `BellmanFordRouting.route_pkt(cube, pkt)` (bellmanford.py lines
286-308) for a `BMFDataPkt` with fields `(src, dest, payload)`.  When the
cube is not the destination and `next_hop` finds no route, the source
executes `cube.num_pkts_dropped += 1`; `RoutingCube` has no attribute
`num_pkts_dropped` (the counters live on `cube._stats`), so the read
raises `AttributeError` and nothing is mutated.  When a next hop exists
the packet is forwarded with `send_packet`; a non-adjacent next hop makes
`determine_tx_dir` return `None` and `send_packet(None, pkt)` raises on
`None.value`. -/
def route_pkt (g : BMFGrid β) (cid : Nat) (src : Int) (dest : Option Int)
    (payload : β) : BMFGrid β × Option String :=
  match g.cubeHeap.get? cid with
  | none => (g, none)
  | some cube =>
    if dest = some cube.id then (g, none)
    else
      match cube.data.distance_tbl.next_hop dest with
      | none =>
        (g, some "AttributeError: RoutingCube has no attribute num_pkts_dropped")
      | some (.inl _) => (g, none)
      | some (.inr next_hop) =>
        match determine_tx_dir cube.position next_hop with
        | none => (g, some "AttributeError: NoneType has no attribute value")
        | some tx_dir =>
          ((g.send_packet cid tx_dir (.data src dest payload)).1, none)

/-- `BellmanFordRouting.route(cube)`: pop one packet and dispatch on its
class; afterwards (unless an exception aborted the dispatch) transmit and
clear a staged `tx_data` packet. -/
def route (g : BMFGrid β) (cid : Nat) : BMFGrid β × Option String :=
  match g.cubeHeap.get? cid with
  | none => (g, none)
  | some cube =>
    let cp := cube.get_packet
    let g := g.setCubeAt cid cp.1
    let dispatched : BMFGrid β × Option String :=
      match cp.2 with
      | none => (g, none)
      | some (pkt, rx_dir) =>
        match pkt with
        | .newNeighbor src dst lc ack =>
          (update_neighbors (got_new_neighbor_notif g cid src dst lc ack rx_dir)
            cid, none)
        | .distanceVector src _ vec =>
          (update_neighbors (update_distance_tbl g cid src vec rx_dir) cid, none)
        | .data src dst payload => route_pkt g cid src dst payload
    match dispatched with
    | (g, some e) => (g, some e)
    | (g, none) =>
      match g.cubeHeap.get? cid with
      | none => (g, none)
      | some c =>
        match c.data.tx_data with
        | none => (g, none)
        | some (src, dst, payload) =>
          let rp := route_pkt g cid src dst payload
          match rp with
          | (g, some e) => (g, some e)
          | (g, none) =>
            (g.modifyCubeAt cid (fun c =>
              { c with data := { c.data with tx_data := none } }), none)

end BellmanFordRouting

/-- A routing/robot hook that does nothing (the behaviour of
`routing_algorithms.template.Template.power_on` and of a passive
algorithm's `route`). -/
def idleHook {α δ : Type} : RouteFn α δ := fun c => (c, [])

/-! ### Frame lemmas for the heap primitives -/

lemma list_get?_set_self {β : Type} :
    ∀ (l : List β) (i : Nat) (a : β), i < l.length →
      (l.set i a).get? i = some a
  | _ :: _, 0, _, _ => rfl
  | _ :: t, i + 1, a, h => list_get?_set_self t i a (by simpa using h)

lemma list_get?_set_ne {β : Type} :
    ∀ (l : List β) (i j : Nat) (a : β), i ≠ j →
      (l.set i a).get? j = l.get? j
  | [], _, _, _, _ => rfl
  | _ :: _, 0, 0, _, h => absurd rfl h
  | _ :: _, 0, _ + 1, _, _ => rfl
  | _ :: _, _ + 1, 0, _, _ => rfl
  | _ :: t, i + 1, j + 1, a, h =>
    list_get?_set_ne t i j a (fun e => h (by rw [e]))

namespace NetworkGrid

variable {α δ : Type}

lemma cubeAt_setCubeAt_self (g : NetworkGrid α δ) (cid : Nat)
    (c c₀ : RoutingCube α δ) (h : g.cubeAt cid = some c₀) :
    (g.setCubeAt cid c).cubeAt cid = some c := by
  have hlt : cid < g.cubeHeap.length := (List.get?_eq_some.mp h).1
  simpa [cubeAt, setCubeAt] using list_get?_set_self _ _ _ hlt

lemma cubeAt_setCubeAt_ne (g : NetworkGrid α δ) (cid nid : Nat)
    (c : RoutingCube α δ) (h : nid ≠ cid) :
    (g.setCubeAt cid c).cubeAt nid = g.cubeAt nid := by
  simpa [cubeAt, setCubeAt] using list_get?_set_ne _ _ _ _ (Ne.symm h)

lemma cubeAt_modifyCubeAt_ne (g : NetworkGrid α δ) (cid nid : Nat)
    (f : RoutingCube α δ → RoutingCube α δ) (h : nid ≠ cid) :
    (g.modifyCubeAt cid f).cubeAt nid = g.cubeAt nid := by
  unfold modifyCubeAt
  cases hm : g.cubeHeap.get? cid with
  | none => rfl
  | some c => exact cubeAt_setCubeAt_ne _ _ _ _ h

lemma node_map_setCubeAt (g : NetworkGrid α δ) (cid : Nat)
    (c : RoutingCube α δ) : (g.setCubeAt cid c).node_map = g.node_map := rfl

lemma node_map_modifyCubeAt (g : NetworkGrid α δ) (cid : Nat)
    (f : RoutingCube α δ → RoutingCube α δ) :
    (g.modifyCubeAt cid f).node_map = g.node_map := by
  unfold modifyCubeAt
  cases g.cubeHeap.get? cid <;> rfl

lemma length_setCubeAt (g : NetworkGrid α δ) (cid : Nat)
    (c : RoutingCube α δ) :
    (g.setCubeAt cid c).cubeHeap.length = g.cubeHeap.length := by
  simp [setCubeAt]

lemma length_modifyCubeAt (g : NetworkGrid α δ) (cid : Nat)
    (f : RoutingCube α δ → RoutingCube α δ) :
    (g.modifyCubeAt cid f).cubeHeap.length = g.cubeHeap.length := by
  unfold modifyCubeAt
  cases g.cubeHeap.get? cid with
  | none => rfl
  | some c => exact length_setCubeAt _ _ _

lemma send_packet_frame (g : NetworkGrid α δ) (cid : Nat) (d : Direction)
    (pkt : α) :
    (g.send_packet cid d pkt).1.node_map = g.node_map ∧
    (g.send_packet cid d pkt).1.node_list = g.node_list ∧
    (g.send_packet cid d pkt).1.robot_list = g.robot_list ∧
    (g.send_packet cid d pkt).1.cubeHeap.length = g.cubeHeap.length ∧
    ∀ nid, nid ≠ cid →
      (g.send_packet cid d pkt).1.cubeAt nid = g.cubeAt nid := by
  unfold send_packet
  split
  · exact ⟨rfl, rfl, rfl, rfl, fun _ _ => rfl⟩
  · dsimp only
    split
    · split <;>
        exact ⟨rfl, rfl, rfl, by simp [setCubeAt],
          fun nid hne => by
            simpa [cubeAt, setCubeAt] using
              list_get?_set_ne _ _ _ _ (Ne.symm hne)⟩
    · exact ⟨rfl, rfl, rfl, by simp [setCubeAt],
        fun nid hne => cubeAt_setCubeAt_ne g cid nid _ hne⟩

lemma send_fold_frame (g : NetworkGrid α δ) (cid : Nat)
    (sends : List (Direction × α)) :
    (sends.foldl (fun g s => (send_packet g cid s.1 s.2).1) g).node_map
        = g.node_map ∧
    (sends.foldl (fun g s => (send_packet g cid s.1 s.2).1) g).node_list
        = g.node_list ∧
    (sends.foldl (fun g s => (send_packet g cid s.1 s.2).1) g).robot_list
        = g.robot_list ∧
    (sends.foldl (fun g s => (send_packet g cid s.1 s.2).1) g).cubeHeap.length
        = g.cubeHeap.length ∧
    ∀ nid, nid ≠ cid →
      (sends.foldl (fun g s => (send_packet g cid s.1 s.2).1) g).cubeAt nid
        = g.cubeAt nid := by
  induction sends generalizing g with
  | nil => exact ⟨rfl, rfl, rfl, rfl, fun _ _ => rfl⟩
  | cons s rest ih =>
    obtain ⟨k1, k2, k3, k4, k5⟩ := send_packet_frame g cid s.1 s.2
    obtain ⟨h1, h2, h3, h4, h5⟩ := ih ((send_packet g cid s.1 s.2).1)
    exact ⟨h1.trans k1, h2.trans k2, h3.trans k3, h4.trans k4,
      fun nid hne => (h5 nid hne).trans (k5 nid hne)⟩

lemma applyRouteFnAt_frame (f : RouteFn α δ) (g : NetworkGrid α δ)
    (cid : Nat) :
    (applyRouteFnAt f g cid).node_map = g.node_map ∧
    (applyRouteFnAt f g cid).node_list = g.node_list ∧
    (applyRouteFnAt f g cid).robot_list = g.robot_list ∧
    (applyRouteFnAt f g cid).cubeHeap.length = g.cubeHeap.length ∧
    ∀ nid, nid ≠ cid →
      (applyRouteFnAt f g cid).cubeAt nid = g.cubeAt nid := by
  unfold applyRouteFnAt
  split
  · exact ⟨rfl, rfl, rfl, rfl, fun _ _ => rfl⟩
  · dsimp only
    obtain ⟨h1, h2, h3, h4, h5⟩ := send_fold_frame (g.setCubeAt cid _) cid _
    refine ⟨h1.trans rfl, h2.trans rfl, h3.trans rfl,
      h4.trans (length_setCubeAt _ _ _), fun nid hne =>
        (h5 nid hne).trans (cubeAt_setCubeAt_ne _ _ _ _ hne)⟩

lemma stepCube_frame (f : RouteFn α δ) (g : NetworkGrid α δ) (cid : Nat) :
    (stepCube f g cid).node_map = g.node_map ∧
    (stepCube f g cid).node_list = g.node_list ∧
    (stepCube f g cid).robot_list = g.robot_list ∧
    (stepCube f g cid).cubeHeap.length = g.cubeHeap.length ∧
    ∀ nid, nid ≠ cid → (stepCube f g cid).cubeAt nid = g.cubeAt nid := by
  unfold stepCube
  obtain ⟨h1, h2, h3, h4, h5⟩ := applyRouteFnAt_frame f
    (g.modifyCubeAt cid fun c =>
      { c with stats := c.stats.reset_cycle_dependent_stats }) cid
  refine ⟨h1.trans (node_map_modifyCubeAt _ _ _), h2.trans ?_, h3.trans ?_,
    h4.trans (length_modifyCubeAt _ _ _), fun nid hne =>
      (h5 nid hne).trans (cubeAt_modifyCubeAt_ne _ _ _ _ hne)⟩
  · unfold modifyCubeAt
    cases g.cubeHeap.get? cid <;> rfl
  · unfold modifyCubeAt
    cases g.cubeHeap.get? cid <;> rfl

lemma get_all_packets_fold_frame (c : RoutingCube α δ) :
    ∀ (ds : List Direction) (acc : NetworkGrid α δ × List (α × Direction)),
      (ds.foldl (drain_face c) acc).1.cubeHeap = acc.1.cubeHeap ∧
      (ds.foldl (drain_face c) acc).1.node_map = acc.1.node_map ∧
      (ds.foldl (drain_face c) acc).1.node_list = acc.1.node_list ∧
      (ds.foldl (drain_face c) acc).1.robot_list = acc.1.robot_list := by
  intro ds
  induction ds with
  | nil => exact fun acc => ⟨rfl, rfl, rfl, rfl⟩
  | cons d rest ih =>
    intro acc
    rw [List.foldl_cons]
    obtain ⟨h1, h2, h3, h4⟩ := ih (drain_face c acc d)
    have hd : (drain_face c acc d).1.cubeHeap = acc.1.cubeHeap ∧
        (drain_face c acc d).1.node_map = acc.1.node_map ∧
        (drain_face c acc d).1.node_list = acc.1.node_list ∧
        (drain_face c acc d).1.robot_list = acc.1.robot_list := by
      unfold drain_face
      dsimp only
      cases acc.1.faceHeap.get? (c.faces.get d) <;>
        exact ⟨rfl, rfl, rfl, rfl⟩
    exact ⟨h1.trans hd.1, h2.trans hd.2.1, h3.trans hd.2.2.1,
      h4.trans hd.2.2.2⟩

lemma get_all_packets_frame (g : NetworkGrid α δ) (cid : Nat) :
    (g.get_all_packets cid).1.cubeHeap = g.cubeHeap ∧
    (g.get_all_packets cid).1.node_map = g.node_map ∧
    (g.get_all_packets cid).1.node_list = g.node_list ∧
    (g.get_all_packets cid).1.robot_list = g.robot_list := by
  unfold get_all_packets
  split
  · exact ⟨rfl, rfl, rfl, rfl⟩
  · exact get_all_packets_fold_frame _ Direction.all (g, [])

lemma flush_buffers_frame (maxQ : Nat) (g : NetworkGrid α δ) (cid : Nat) :
    (flush_buffers maxQ g cid).node_map = g.node_map ∧
    (flush_buffers maxQ g cid).node_list = g.node_list ∧
    (flush_buffers maxQ g cid).robot_list = g.robot_list ∧
    (flush_buffers maxQ g cid).cubeHeap.length = g.cubeHeap.length := by
  unfold flush_buffers
  obtain ⟨h1, h2, h3, h4⟩ := get_all_packets_frame g cid
  dsimp only
  constructor
  · rw [node_map_modifyCubeAt]; exact h2
  constructor
  · have : ∀ (g' : NetworkGrid α δ) f, (modifyCubeAt g' cid f).node_list
        = g'.node_list := by
      intro g' f; unfold modifyCubeAt; cases g'.cubeHeap.get? cid <;> rfl
    rw [this]; exact h3
  constructor
  · have : ∀ (g' : NetworkGrid α δ) f, (modifyCubeAt g' cid f).robot_list
        = g'.robot_list := by
      intro g' f; unfold modifyCubeAt; cases g'.cubeHeap.get? cid <;> rfl
    rw [this]; exact h4
  · rw [length_modifyCubeAt, h1]

lemma phase_fold_frame (f : NetworkGrid α δ → Nat → NetworkGrid α δ)
    (hf : ∀ g cid, (f g cid).node_list = g.node_list ∧
      (f g cid).robot_list = g.robot_list ∧
      (f g cid).cubeHeap.length = g.cubeHeap.length) :
    ∀ (l : List Nat) (g : NetworkGrid α δ),
      (l.foldl f g).node_list = g.node_list ∧
      (l.foldl f g).robot_list = g.robot_list ∧
      (l.foldl f g).cubeHeap.length = g.cubeHeap.length := by
  intro l
  induction l with
  | nil => exact fun g => ⟨rfl, rfl, rfl⟩
  | cons cid rest ih =>
    intro g
    obtain ⟨h1, h2, h3⟩ := ih (f g cid)
    obtain ⟨k1, k2, k3⟩ := hf g cid
    exact ⟨h1.trans k1, h2.trans k2, h3.trans k3⟩

end NetworkGrid

/-! ### C10 -/

/-- C10: `RoutingCube.get_packet` on an empty queue returns `(None, None)`
without raising and leaves the cube — queue, inbound faces and all
diagnostics counters — unchanged; on a non-empty queue it removes and
returns exactly the head element together with its arrival direction. -/
theorem C10_get_packet_empty_and_head {α δ : Type} (c : RoutingCube α δ) :
    (c.packets = [] → c.get_packet = (c, none)) ∧
    (∀ p rest, c.packets = p :: rest →
      c.get_packet = ({ c with packets := rest }, some p)) := by
  constructor
  · intro h
    simp [RoutingCube.get_packet, h]
  · intro p rest h
    simp [RoutingCube.get_packet, h]

/-- A cube with an empty queue, for the C10 witness. -/
def c10cube : RoutingCube Nat Unit :=
  { position := (0, 0, 0)
    id := 0
    faces := ⟨0, 1, 2, 3, 4, 5⟩
    ll_references := ⟨none, none, none, none, none, none⟩
    packets := []
    data := ()
    stats := {} }

/-- The same cube with two queued packets. -/
def c10cube2 : RoutingCube Nat Unit :=
  { c10cube with packets := [(7, .EAST), (8, .WEST)] }

/-- Witness for C10 at concrete cubes. -/
theorem C10_witness :
    (c10cube.packets = [] ∧ c10cube.get_packet = (c10cube, none)) ∧
    (c10cube2.packets = (7, Direction.EAST) :: [(8, Direction.WEST)] ∧
      c10cube2.get_packet =
        ({ c10cube2 with packets := [(8, .WEST)] }, some (7, .EAST))) :=
  ⟨⟨rfl, (C10_get_packet_empty_and_head c10cube).1 rfl⟩,
   ⟨rfl, (C10_get_packet_empty_and_head c10cube2).2 _ _ rfl⟩⟩

/-! ### C9 -/

namespace NetworkGrid

variable {α δ : Type}

/-- Evaluation of `send_packet` when no neighbour is wired in the chosen
direction. -/
lemma send_packet_eval_none (g : NetworkGrid α δ) (cid : Nat)
    (c : RoutingCube α δ) (d : Direction) (pkt : α)
    (hc : g.cubeHeap.get? cid = some c)
    (hro : c.ll_references.get d = none) :
    g.send_packet cid d pkt
      = (g.setCubeAt cid { c with stats :=
          { c.stats with
            num_pkts_sent := c.stats.num_pkts_sent + 1
            num_pkts_sent_this_cycle := c.stats.num_pkts_sent_this_cycle + 1
            num_pkts_dropped := c.stats.num_pkts_dropped + 1
            num_pkts_dropped_this_cycle :=
              c.stats.num_pkts_dropped_this_cycle + 1 } }, false) := by
  unfold NetworkGrid.send_packet
  rw [hc]
  dsimp only
  rw [hro]

/-- Evaluation of `send_packet` when a neighbour face is wired. -/
lemma send_packet_eval_some (g : NetworkGrid α δ) (cid : Nat)
    (c : RoutingCube α δ) (d : Direction) (pkt : α) (fid : Nat)
    (hc : g.cubeHeap.get? cid = some c)
    (hro : c.ll_references.get d = some fid) (buf : List α)
    (hbuf : g.faceHeap.get? fid = some buf) :
    g.send_packet cid d pkt
      = ({ g.setCubeAt cid { c with stats :=
          { c.stats with
            num_pkts_sent := c.stats.num_pkts_sent + 1
            num_pkts_sent_this_cycle :=
              c.stats.num_pkts_sent_this_cycle + 1 } } with
          faceHeap := g.faceHeap.set fid (buf ++ [pkt]) }, true) := by
  unfold NetworkGrid.send_packet
  rw [hc]
  dsimp only
  rw [hro]
  dsimp only
  rw [show (g.setCubeAt cid _).faceHeap.get? fid = some buf from hbuf]
  rfl

end NetworkGrid

/-- C9: `RoutingCube.send_packet(d, pkt)` unconditionally increments
`num_pkts_sent` and `num_pkts_sent_this_cycle`; when a neighbour reference
is wired in direction `d` (and its face buffer is `buf`) it appends `pkt`
to that neighbour's inbound face and returns `true`, leaving the drop
counters alone; when no neighbour is wired it returns `false` and
additionally increments `num_pkts_dropped` and
`num_pkts_dropped_this_cycle`. -/
theorem C9_send_packet_spec {α δ : Type} (g : NetworkGrid α δ) (cid : Nat)
    (c : RoutingCube α δ) (d : Direction) (pkt : α)
    (hc : g.cubeAt cid = some c) :
    (∀ fid buf, c.ll_references.get d = some fid →
      g.faceHeap.get? fid = some buf →
      (g.send_packet cid d pkt).2 = true ∧
      (g.send_packet cid d pkt).1.faceHeap.get? fid = some (buf ++ [pkt]) ∧
      (g.send_packet cid d pkt).1.cubeAt cid = some { c with stats :=
        { c.stats with
          num_pkts_sent := c.stats.num_pkts_sent + 1
          num_pkts_sent_this_cycle :=
            c.stats.num_pkts_sent_this_cycle + 1 } }) ∧
    (c.ll_references.get d = none →
      (g.send_packet cid d pkt).2 = false ∧
      (g.send_packet cid d pkt).1.cubeAt cid = some { c with stats :=
        { c.stats with
          num_pkts_sent := c.stats.num_pkts_sent + 1
          num_pkts_sent_this_cycle := c.stats.num_pkts_sent_this_cycle + 1
          num_pkts_dropped := c.stats.num_pkts_dropped + 1
          num_pkts_dropped_this_cycle :=
            c.stats.num_pkts_dropped_this_cycle + 1 } }) := by
  have hc' : g.cubeHeap.get? cid = some c := hc
  have hlt : cid < g.cubeHeap.length := (List.get?_eq_some.mp hc').1
  constructor
  · intro fid buf hro hbuf
    rw [NetworkGrid.send_packet_eval_some g cid c d pkt fid hc' hro buf hbuf]
    have hflt : fid < g.faceHeap.length := (List.get?_eq_some.mp hbuf).1
    refine ⟨rfl, ?_, ?_⟩
    · exact list_get?_set_self g.faceHeap fid (buf ++ [pkt]) hflt
    · show (g.cubeHeap.set cid _).get? cid = _
      exact list_get?_set_self g.cubeHeap cid _ hlt
  · intro hro
    rw [NetworkGrid.send_packet_eval_none g cid c d pkt hc' hro]
    exact ⟨rfl, NetworkGrid.cubeAt_setCubeAt_self g cid _ c hc⟩

/-- A two-node grid: cubes at (0,0,0) and (1,0,0), wired east-west. -/
def twoNodeGrid : NetworkGrid Nat Unit :=
  NetworkGrid.add_node idleHook ()
    (NetworkGrid.add_node idleHook () NetworkGrid.init 0 0 0) 1 0 0

/-- The cube allocated at (0,0,0) in `twoNodeGrid` after wiring. -/
def twoNodeCube0 : RoutingCube Nat Unit :=
  { position := (0, 0, 0), id := 0
    faces := ⟨0, 1, 2, 3, 4, 5⟩
    ll_references := ⟨none, none, none, some 8, none, none⟩
    packets := [], data := (), stats := {} }

/-- Witness for C9: on `twoNodeGrid`, cube 0 sending EAST succeeds and
lands in cube 1's west inbound face (heap id 8); sending NORTH (no
neighbour) fails and bumps the drop counters. -/
theorem C9_witness :
    (twoNodeGrid.cubeAt 0 = some twoNodeCube0 ∧
     twoNodeCube0.ll_references.get .EAST = some 8 ∧
     twoNodeGrid.faceHeap.get? 8 = some [] ∧
     twoNodeCube0.ll_references.get .NORTH = none) ∧
    ((twoNodeGrid.send_packet 0 .EAST 42).2 = true ∧
     (twoNodeGrid.send_packet 0 .EAST 42).1.faceHeap.get? 8 = some [42] ∧
     (twoNodeGrid.send_packet 0 .NORTH 42).2 = false ∧
     (twoNodeGrid.send_packet 0 .NORTH 42).1.cubeAt 0
       = some { twoNodeCube0 with stats :=
          { twoNodeCube0.stats with
            num_pkts_sent := 1
            num_pkts_sent_this_cycle := 1
            num_pkts_dropped := 1
            num_pkts_dropped_this_cycle := 1 } }) := by
  have h0 : twoNodeGrid.cubeAt 0 = some twoNodeCube0 := by decide
  have he := (C9_send_packet_spec twoNodeGrid 0 twoNodeCube0 .EAST 42 h0).1
    8 [] rfl (by decide)
  have hn := (C9_send_packet_spec twoNodeGrid 0 twoNodeCube0 .NORTH 42 h0).2
    rfl
  exact ⟨⟨h0, rfl, by decide, rfl⟩, ⟨he.1, he.2.1, hn.1, hn.2⟩⟩

/-! ### C1 -/

lemma integrateLoop_raises {α δ : Type} :
    ∀ (l : List Nat) (g : NetworkGrid α δ),
      (∃ cid ∈ l, cid < g.cubeHeap.length) →
      (NetworkGrid.integrateLoop g l).2 = true := by
  intro l
  induction l with
  | nil =>
    rintro g ⟨cid, hmem, _⟩
    exact absurd hmem (List.not_mem_nil cid)
  | cons head rest ih =>
    rintro g ⟨cid, hmem, hlt⟩
    cases hm : g.cubeHeap.get? head with
    | some c =>
      have hm' : g.cubeHeap[head]? = some c := by
        rw [← List.get?_eq_getElem?]; exact hm
      simp [NetworkGrid.integrateLoop, hm, hm',
        NetworkDiagnostics.integrate_node_stats]
    | none =>
      have hm' : g.cubeHeap[head]? = none := by
        rw [← List.get?_eq_getElem?]; exact hm
      have hcr : cid ∈ rest := by
        rcases List.mem_cons.mp hmem with rfl | h
        · exact absurd hlt (Nat.not_lt.mpr (List.get?_eq_none.mp hm))
        · exact h
      simpa [NetworkGrid.integrateLoop, hm, hm'] using ih g ⟨cid, hcr, hlt⟩

/-- C1 (code_bug): `update_net_stats` — invoked at the end of every
`NetworkGrid.step` — never completes its rollup on a grid that has at
least one node: `integrate_node_stats` reads `nodestats.total_cycle_mem`
(and `max_mem`, `correctly_routed_pkts_this_cycle`), attributes that
`NodeDiagnostics` does not define, so the first node processed raises
`AttributeError` and both `update_net_stats` and `step` propagate it.
Consequently the claimed post-rollup relations between
`total_pkts_dropped` / `total_pkts_received` and the per-node counters are
never established (note also that line 57 of netstats.py accumulates
`num_pkts_sent_this_cycle` into `total_pkts_received`). -/
theorem C1_rollup_raises {α δ : Type} (g : NetworkGrid α δ) (cid : Nat)
    (hmem : cid ∈ g.node_list) (hlt : cid < g.cubeHeap.length) :
    (g.update_net_stats).2 = true ∧
    ∀ (maxQ : Nat) (route robo : RouteFn α δ),
      (g.step maxQ route robo).2 = true := by
  have hup : ∀ (g' : NetworkGrid α δ), cid ∈ g'.node_list →
      cid < g'.cubeHeap.length → (g'.update_net_stats).2 = true := by
    intro g' hm hl
    unfold NetworkGrid.update_net_stats
    exact integrateLoop_raises _ _ ⟨cid, hm, hl⟩
  refine ⟨hup g hmem hlt, ?_⟩
  intro maxQ route robo
  unfold NetworkGrid.step
  have f1 := NetworkGrid.phase_fold_frame (NetworkGrid.stepCube route)
    (fun g c => ⟨(NetworkGrid.stepCube_frame route g c).2.1,
      (NetworkGrid.stepCube_frame route g c).2.2.1,
      (NetworkGrid.stepCube_frame route g c).2.2.2.1⟩) g.node_list g
  have f2 := NetworkGrid.phase_fold_frame (NetworkGrid.flush_buffers maxQ)
    (fun g c => ⟨(NetworkGrid.flush_buffers_frame maxQ g c).2.1,
      (NetworkGrid.flush_buffers_frame maxQ g c).2.2.1,
      (NetworkGrid.flush_buffers_frame maxQ g c).2.2.2⟩)
    (g.node_list.foldl (NetworkGrid.stepCube route) g).node_list
    (g.node_list.foldl (NetworkGrid.stepCube route) g)
  have f3 := NetworkGrid.phase_fold_frame (NetworkGrid.applyRouteFnAt robo)
    (fun g c => ⟨(NetworkGrid.applyRouteFnAt_frame robo g c).2.1,
      (NetworkGrid.applyRouteFnAt_frame robo g c).2.2.1,
      (NetworkGrid.applyRouteFnAt_frame robo g c).2.2.2.1⟩)
    ((g.node_list.foldl (NetworkGrid.stepCube route) g).node_list.foldl
      (NetworkGrid.flush_buffers maxQ)
      (g.node_list.foldl (NetworkGrid.stepCube route) g)).robot_list
    ((g.node_list.foldl (NetworkGrid.stepCube route) g).node_list.foldl
      (NetworkGrid.flush_buffers maxQ)
      (g.node_list.foldl (NetworkGrid.stepCube route) g))
  refine hup _ ?_ ?_
  · rw [f3.1, f2.1, f1.1]; exact hmem
  · rw [f3.2.2, f2.2.2, f1.2.2]; exact hlt

/-- Witness for C1 on the concrete two-node grid. -/
theorem C1_witness :
    (0 ∈ twoNodeGrid.node_list ∧ 0 < twoNodeGrid.cubeHeap.length) ∧
    (twoNodeGrid.update_net_stats).2 = true ∧
    (twoNodeGrid.step 64 idleHook idleHook).2 = true :=
  ⟨⟨by decide, by decide⟩,
   (C1_rollup_raises twoNodeGrid 0 (by decide) (by decide)).1,
   (C1_rollup_raises twoNodeGrid 0 (by decide) (by decide)).2 64
     idleHook idleHook⟩

/-! ### C3 -/

/-- C3 (code_bug): when the Bellman-Ford `route` pops a Data packet whose
destination is not this cube and `next_hop` finds no route, the source
executes `cube.num_pkts_dropped += 1`; `RoutingCube` has no such attribute
(the counters live on `cube._stats`), so the read raises `AttributeError`:
the cycle aborts, and neither `num_pkts_dropped` nor
`num_pkts_dropped_this_cycle` of the cube's diagnostics is incremented —
the cube's stats are left exactly as they were. -/
theorem C3_route_unknown_dest_raises {β : Type} [DecidableEq β]
    (g : BMFGrid β) (cid : Nat)
    (cube : RoutingCube (BMFPkt β) (BellmanFordData β))
    (src : Int) (dest : Option Int) (payload : β) (d : Direction)
    (rest : List (BMFPkt β × Direction))
    (hc : g.cubeAt cid = some cube)
    (hq : cube.packets = (BMFPkt.data src dest payload, d) :: rest)
    (hdest : dest ≠ some cube.id)
    (hnh : cube.data.distance_tbl.next_hop dest = none) :
    BellmanFordRouting.route g cid
      = (g.setCubeAt cid { cube with packets := rest },
         some "AttributeError: RoutingCube has no attribute num_pkts_dropped")
      ∧ ∀ c',
          (g.setCubeAt cid { cube with packets := rest }).cubeAt cid = some c' →
          c'.stats = cube.stats := by
  have hc' : g.cubeHeap.get? cid = some cube := hc
  constructor
  · unfold BellmanFordRouting.route
    rw [hc']
    dsimp only
    rw [show cube.get_packet
        = ({ cube with packets := rest }, some (BMFPkt.data src dest payload, d))
      from by simp [RoutingCube.get_packet, hq]]
    dsimp only
    unfold BellmanFordRouting.route_pkt
    rw [show (NetworkGrid.setCubeAt g cid
        { cube with packets := rest }).cubeHeap.get? cid
        = some { cube with packets := rest } from
      NetworkGrid.cubeAt_setCubeAt_self g cid _ cube hc]
    dsimp only
    rw [if_neg hdest, hnh]
  · intro c' hc''
    rw [NetworkGrid.cubeAt_setCubeAt_self g cid _ cube hc] at hc''
    cases hc''
    rfl

/-- A single-cube Bellman-Ford grid whose queue holds a Data packet for an
unknown destination (address 99). -/
def bmfLoneGrid : BMFGrid Nat :=
  { faceHeap := [[], [], [], [], [], []]
    cubeHeap := [{ position := (0, 0, 0)
                   id := 0
                   faces := ⟨0, 1, 2, 3, 4, 5⟩
                   ll_references := ⟨none, none, none, none, none, none⟩
                   packets := [(BMFPkt.data 7 (some 99) 5, .WEST)]
                   data := BellmanFordData.init Nat 0
                   stats := {} }]
    node_map := [((0, 0, 0), 0)]
    node_list := [0]
    robot_list := []
    layer_entry_points := [(0, 0)]
    layer_bounds := [(0, (0, 0, 0, 0))]
    stats := {}
    next_id := 1 }

/-- Witness for C3 at the concrete grid: the route cycle raises and the
drop counters stay at zero. -/
theorem C3_witness :
    ((BellmanFordRouting.route bmfLoneGrid 0).2
        = some "AttributeError: RoutingCube has no attribute num_pkts_dropped") ∧
    ∀ c', (BellmanFordRouting.route bmfLoneGrid 0).1.cubeAt 0 = some c' →
      c'.stats.num_pkts_dropped = 0 ∧
      c'.stats.num_pkts_dropped_this_cycle = 0 := by
  have hcube : bmfLoneGrid.cubeAt 0 = some
      { position := (0, 0, 0)
        id := 0
        faces := ⟨0, 1, 2, 3, 4, 5⟩
        ll_references := ⟨none, none, none, none, none, none⟩
        packets := [(BMFPkt.data 7 (some 99) 5, .WEST)]
        data := BellmanFordData.init Nat 0
        stats := {} } := rfl
  have h := C3_route_unknown_dest_raises bmfLoneGrid 0 _ 7 (some 99) 5 .WEST []
    hcube rfl (by decide) (by decide)
  rw [h.1]
  exact ⟨rfl, fun c' hc' => by rw [(h.2 c' hc')]; exact ⟨rfl, rfl⟩⟩

/-! ### C4 -/

namespace NetworkGrid

variable {α δ : Type}

/-- Evaluation of the receive-loop body when the queue has room. -/
lemma flush_one_lt (maxQ : Nat) (c : RoutingCube α δ) (p : α × Direction)
    (h : c.packets.length < maxQ) :
    flush_one maxQ c p = { c with
      packets := c.packets ++ [p]
      stats := { c.stats with
        num_pkts_received := c.stats.num_pkts_received + 1
        num_pkts_received_this_cycle :=
          c.stats.num_pkts_received_this_cycle + 1
        highest_q_len :=
          max c.stats.highest_q_len (c.packets.length + 1) } } := by
  unfold flush_one
  dsimp only
  rw [if_pos h]
  dsimp only
  by_cases hh : (c.packets ++ [p]).length > c.stats.highest_q_len
  · rw [if_pos hh]
    simp only [List.length_append, List.length_singleton] at hh
    have : max c.stats.highest_q_len (c.packets.length + 1)
        = c.packets.length + 1 := by omega
    rw [this]
    simp
  · rw [if_neg hh]
    simp only [List.length_append, List.length_singleton] at hh
    have : max c.stats.highest_q_len (c.packets.length + 1)
        = c.stats.highest_q_len := by omega
    rw [this]

/-- Evaluation of the receive-loop body when the queue is full
(`queue.Full` is raised and the packet is dropped). -/
lemma flush_one_full (maxQ : Nat) (c : RoutingCube α δ) (p : α × Direction)
    (h : ¬ c.packets.length < maxQ) :
    flush_one maxQ c p = { c with
      stats := { c.stats with
        num_pkts_received := c.stats.num_pkts_received + 1
        num_pkts_received_this_cycle :=
          c.stats.num_pkts_received_this_cycle + 1
        num_pkts_dropped := c.stats.num_pkts_dropped + 1
        num_pkts_dropped_this_cycle :=
          c.stats.num_pkts_dropped_this_cycle + 1
        highest_q_len :=
          max c.stats.highest_q_len c.packets.length } } := by
  unfold flush_one
  dsimp only
  rw [if_neg h]
  dsimp only
  by_cases hh : c.packets.length > c.stats.highest_q_len
  · rw [if_pos hh]
    have : max c.stats.highest_q_len c.packets.length
        = c.packets.length := by omega
    rw [this]
  · rw [if_neg hh]
    have : max c.stats.highest_q_len c.packets.length
        = c.stats.highest_q_len := by omega
    rw [this]

/-- Characterization of the receive loop of `flush_buffers` over an
arbitrary arrival list `A`: the queue is extended, in order, by exactly
the arrivals that fit under `maxQ`; every arrival is counted in the
received counters; each arrival that hits a full queue is counted in the
drop counters; and `highest_q_len` tracks the maximum queue length
reached. -/
lemma flush_fold_spec (maxQ : Nat) :
    ∀ (A : List (α × Direction)) (c : RoutingCube α δ),
      c.packets.length ≤ maxQ →
      (A.foldl (flush_one maxQ) c).packets
          = c.packets ++ A.take (maxQ - c.packets.length) ∧
      (A.foldl (flush_one maxQ) c).stats.num_pkts_received
          = c.stats.num_pkts_received + A.length ∧
      (A.foldl (flush_one maxQ) c).stats.num_pkts_received_this_cycle
          = c.stats.num_pkts_received_this_cycle + A.length ∧
      (A.foldl (flush_one maxQ) c).stats.num_pkts_dropped
          = c.stats.num_pkts_dropped
            + (A.length - (maxQ - c.packets.length)) ∧
      (A.foldl (flush_one maxQ) c).stats.num_pkts_dropped_this_cycle
          = c.stats.num_pkts_dropped_this_cycle
            + (A.length - (maxQ - c.packets.length)) ∧
      (A ≠ [] → (A.foldl (flush_one maxQ) c).stats.highest_q_len
          = max c.stats.highest_q_len
              (A.foldl (flush_one maxQ) c).packets.length) := by
  intro A
  induction A with
  | nil =>
    intro c hq
    refine ⟨by simp, by simp, by simp, by simp, by simp,
      fun h => absurd rfl h⟩
  | cons p A' ih =>
    intro c hq
    rw [List.foldl_cons]
    by_cases hfull : c.packets.length < maxQ
    · rw [flush_one_lt maxQ c p hfull]
      obtain ⟨k1, k2, k3, k4, k5, k6⟩ := ih
        { c with
          packets := c.packets ++ [p]
          stats := { c.stats with
            num_pkts_received := c.stats.num_pkts_received + 1
            num_pkts_received_this_cycle :=
              c.stats.num_pkts_received_this_cycle + 1
            highest_q_len :=
              max c.stats.highest_q_len (c.packets.length + 1) } }
        (by simp only [List.length_append, List.length_singleton]; omega)
      dsimp only at k1 k2 k3 k4 k5 k6
      simp only [List.length_append, List.length_singleton] at k1 k2 k3 k4 k5 k6
      refine ⟨?_, ?_, ?_, ?_, ?_, ?_⟩
      · rw [k1]
        have he : maxQ - c.packets.length
            = (maxQ - (c.packets.length + 1)) + 1 := by omega
        rw [he, List.take_succ_cons]
        simp
      · rw [k2]; simp; omega
      · rw [k3]; simp; omega
      · rw [k4]; simp; omega
      · rw [k5]; simp; omega
      · intro _
        rcases List.eq_nil_or_concat A' with hA' | ⟨l, x, hA'⟩
        · subst hA'
          simp
        · have hA'ne : A' ≠ [] := by rw [hA']; simp
          rw [k6 hA'ne, k1]
          have hlen : c.packets.length + 1
              ≤ (c.packets ++ [p] ++
                  A'.take (maxQ - (c.packets.length + 1))).length := by
            simp
          rw [Nat.max_assoc]
          congr 1
          simp only [List.length_append, List.length_singleton]
          omega
    · rw [flush_one_full maxQ c p hfull]
      obtain ⟨k1, k2, k3, k4, k5, k6⟩ := ih
        { c with
          stats := { c.stats with
            num_pkts_received := c.stats.num_pkts_received + 1
            num_pkts_received_this_cycle :=
              c.stats.num_pkts_received_this_cycle + 1
            num_pkts_dropped := c.stats.num_pkts_dropped + 1
            num_pkts_dropped_this_cycle :=
              c.stats.num_pkts_dropped_this_cycle + 1
            highest_q_len :=
              max c.stats.highest_q_len c.packets.length } }
        (by dsimp only; exact hq)
      dsimp only at k1 k2 k3 k4 k5 k6
      have hz : maxQ - c.packets.length = 0 := by omega
      refine ⟨?_, ?_, ?_, ?_, ?_, ?_⟩
      · rw [k1, hz]; simp
      · rw [k2]; simp; omega
      · rw [k3]; simp; omega
      · rw [k4, hz]; simp; omega
      · rw [k5, hz]; simp; omega
      · intro _
        rcases List.eq_nil_or_concat A' with hA' | ⟨l, x, hA'⟩
        · subst hA'
          simp
        · have hA'ne : A' ≠ [] := by rw [hA']; simp
          rw [k6 hA'ne, k1, hz]
          rw [Nat.max_assoc]
          congr 1
          simp

lemma drain_face_faceHeap_length (c : RoutingCube α δ)
    (acc : NetworkGrid α δ × List (α × Direction)) (d : Direction) :
    (drain_face c acc d).1.faceHeap.length = acc.1.faceHeap.length := by
  unfold drain_face
  dsimp only
  cases acc.1.faceHeap.get? (c.faces.get d) with
  | none => rfl
  | some buf => simp

lemma gap_fold_keeps_empty (c : RoutingCube α δ) :
    ∀ (ds : List Direction) (acc : NetworkGrid α δ × List (α × Direction))
      (fid : Nat), acc.1.faceHeap.get? fid = some [] →
      ((ds.foldl (drain_face c) acc).1.faceHeap.get? fid = some []) := by
  intro ds
  induction ds with
  | nil => exact fun acc fid h => h
  | cons d rest ih =>
    intro acc fid h
    rw [List.foldl_cons]
    refine ih _ fid ?_
    unfold drain_face
    dsimp only
    cases hf : acc.1.faceHeap.get? (c.faces.get d) with
    | none => exact h
    | some buf =>
      by_cases he : c.faces.get d = fid
      · subst he
        have hlt : c.faces.get d < acc.1.faceHeap.length :=
          (List.get?_eq_some.mp hf).1
        simpa using list_get?_set_self _ _ _ hlt
      · simpa using (list_get?_set_ne acc.1.faceHeap _ fid [] he).trans h

lemma gap_fold_drains (c : RoutingCube α δ) :
    ∀ (ds : List Direction) (acc : NetworkGrid α δ × List (α × Direction))
      (d : Direction), d ∈ ds →
      c.faces.get d < acc.1.faceHeap.length →
      (ds.foldl (drain_face c) acc).1.faceHeap.get? (c.faces.get d)
        = some [] := by
  intro ds
  induction ds with
  | nil => intro acc d hmem; exact absurd hmem (List.not_mem_nil d)
  | cons d0 rest ih =>
    intro acc d hmem hlt
    rw [List.foldl_cons]
    rcases List.mem_cons.mp hmem with rfl | hmem'
    · refine gap_fold_keeps_empty c rest _ _ ?_
      unfold drain_face
      dsimp only
      cases hf : acc.1.faceHeap.get? (c.faces.get d) with
      | none =>
        exact absurd hlt (Nat.not_lt.mpr (List.get?_eq_none.mp hf))
      | some buf =>
        simpa using list_get?_set_self _ _ ([] : List α)
          ((List.get?_eq_some.mp hf).1)
    · exact ih _ d hmem' (by rw [drain_face_faceHeap_length]; exact hlt)

/-- Evaluation of `get_all_packets` at a resolvable cube id. -/
lemma get_all_packets_eval (g : NetworkGrid α δ) (cid : Nat)
    (c : RoutingCube α δ) (hc : g.cubeHeap.get? cid = some c) :
    g.get_all_packets cid = Direction.all.foldl (drain_face c) (g, []) := by
  unfold get_all_packets
  rw [hc]

lemma faceHeap_modifyCubeAt (g : NetworkGrid α δ) (cid : Nat)
    (f : RoutingCube α δ → RoutingCube α δ) :
    (g.modifyCubeAt cid f).faceHeap = g.faceHeap := by
  unfold modifyCubeAt
  cases g.cubeHeap.get? cid <;> rfl

end NetworkGrid

/-- Routing hook for the overflow scenario (spec scenario 4): the cube at
(0,0,0) emits one packet EAST on every route invocation; every other cube
is passive and never dequeues. -/
def sendEastHook : RouteFn Nat Unit := fun c =>
  if c.position = (0, 0, 0) then (c, [(.EAST, 7)]) else (c, [])

/-- Scenario grid: a passive cube at (1,0,0) (cube id 0) and a robot at
(0,0,0) (cube id 1). -/
def overflowGrid : NetworkGrid Nat Unit :=
  NetworkGrid.add_robot idleHook idleHook ()
    (NetworkGrid.add_node idleHook () NetworkGrid.init 1 0 0) 0 0 0

/-- Ten cycles of the full step engine with `MAX_Q_LEN = 4`.  (Each step's
diagnostic rollup raises, cf. C1; the state component left behind by the
mutations is carried into the next cycle.) -/
def overflowScenario : NetworkGrid Nat Unit :=
  (fun g => (NetworkGrid.step 4 sendEastHook idleHook g).1)^[10] overflowGrid

/-- C4: `flush_buffers` drains every inbound face into the bounded queue:
each drained face buffer is left empty, every arrival is counted in
`num_pkts_received[_this_cycle]`, the arrivals that fit below `maxQ`
extend the queue in order, each arrival that finds the queue at `maxQ` is
dropped and counted in `num_pkts_dropped[_this_cycle]`, and
`highest_q_len` records the maximum queue length reached.  Concretely,
with `MAX_Q_LEN = 4`, after a neighbour sends one packet per cycle for 10
cycles into a cube that never dequeues, that cube reports
`num_pkts_received = 10`, `current_q_len = 4`, `num_pkts_dropped = 6`
(and `highest_q_len = 4`). -/
theorem C4_flush_overflow {α δ : Type} (maxQ : Nat) (g : NetworkGrid α δ)
    (cid : Nat) (c : RoutingCube α δ)
    (hc : g.cubeAt cid = some c)
    (hq : c.packets.length ≤ maxQ)
    (hv : ∀ d : Direction, c.faces.get d < g.faceHeap.length) :
    (∃ c', (NetworkGrid.flush_buffers maxQ g cid).cubeAt cid = some c' ∧
      c'.packets = c.packets
        ++ (g.get_all_packets cid).2.take (maxQ - c.packets.length) ∧
      c'.stats.num_pkts_received = c.stats.num_pkts_received
        + (g.get_all_packets cid).2.length ∧
      c'.stats.num_pkts_received_this_cycle
        = c.stats.num_pkts_received_this_cycle
        + (g.get_all_packets cid).2.length ∧
      c'.stats.num_pkts_dropped = c.stats.num_pkts_dropped
        + ((g.get_all_packets cid).2.length - (maxQ - c.packets.length)) ∧
      c'.stats.num_pkts_dropped_this_cycle
        = c.stats.num_pkts_dropped_this_cycle
        + ((g.get_all_packets cid).2.length - (maxQ - c.packets.length)) ∧
      ((g.get_all_packets cid).2 ≠ [] →
        c'.stats.highest_q_len
          = max c.stats.highest_q_len c'.packets.length)) ∧
    (∀ d : Direction,
      (NetworkGrid.flush_buffers maxQ g cid).faceAt (c.faces.get d)
        = some []) ∧
    ((overflowScenario.cubeAt 0).map (·.statsProp.num_pkts_received)
        = some 10 ∧
     (overflowScenario.cubeAt 0).map (·.statsProp.current_q_len) = some 4 ∧
     (overflowScenario.cubeAt 0).map (·.statsProp.num_pkts_dropped)
        = some 6 ∧
     (overflowScenario.cubeAt 0).map (·.statsProp.highest_q_len)
        = some 4) := by
  have hc' : g.cubeHeap.get? cid = some c := hc
  have hgap := NetworkGrid.get_all_packets_eval g cid c hc'
  have hframe := NetworkGrid.get_all_packets_fold_frame c Direction.all (g, [])
  have hcube1 : (g.get_all_packets cid).1.cubeHeap.get? cid = some c := by
    rw [hgap, hframe.1]
    exact hc'
  refine ⟨?_, ?_, by decide, by decide, by decide, by decide⟩
  · obtain ⟨k1, k2, k3, k4, k5, k6⟩ :=
      NetworkGrid.flush_fold_spec maxQ (g.get_all_packets cid).2 c hq
    refine ⟨(g.get_all_packets cid).2.foldl (NetworkGrid.flush_one maxQ) c,
      ?_, k1, k2, k3, k4, k5, k6⟩
    show (NetworkGrid.flush_buffers maxQ g cid).cubeHeap.get? cid = _
    unfold NetworkGrid.flush_buffers
    show ((g.get_all_packets cid).1.modifyCubeAt cid _).cubeHeap.get? cid = _
    unfold NetworkGrid.modifyCubeAt
    rw [hcube1]
    exact NetworkGrid.cubeAt_setCubeAt_self _ cid _ c hcube1
  · intro d
    show (NetworkGrid.flush_buffers maxQ g cid).faceHeap.get? _ = _
    unfold NetworkGrid.flush_buffers
    show ((g.get_all_packets cid).1.modifyCubeAt cid _).faceHeap.get? _ = _
    rw [NetworkGrid.faceHeap_modifyCubeAt, hgap]
    exact NetworkGrid.gap_fold_drains c Direction.all (g, []) d
      (by cases d <;> decide) (hv d)

/-- Witness for C4: the second cycle of the overflow scenario — the
passive cube's west face holds one packet and its queue one packet — and
the closed scenario facts. -/
theorem C4_witness :
    (∃ c', ((NetworkGrid.flush_buffers 4
        (NetworkGrid.send_packet twoNodeGrid 0 .EAST 7).1 1).cubeAt 1
          = some c' ∧
      c'.stats.num_pkts_received = 1 ∧
      c'.packets.length = 1)) ∧
    (overflowScenario.cubeAt 0).map (·.statsProp.num_pkts_dropped)
      = some 6 := by
  have hc : (NetworkGrid.send_packet twoNodeGrid 0 .EAST 7).1.cubeAt 1
      = some { position := (1, 0, 0), id := 1
               faces := ⟨6, 7, 8, 9, 10, 11⟩
               ll_references := ⟨none, none, some 3, none, none, none⟩
               packets := [], data := (), stats := {} } := by decide
  have h := C4_flush_overflow 4 (NetworkGrid.send_packet twoNodeGrid 0 .EAST 7).1
    1 _ hc (by decide) (by intro d; cases d <;> decide)
  obtain ⟨⟨c', hc', hp, hr, _⟩, _, _⟩ := h
  refine ⟨⟨c', hc', ?_, ?_⟩, by decide⟩
  · rw [hr]; decide
  · rw [hp]; decide

/-! ### C2 -/

/-- C2 (amended): within `NetworkGrid.step`, the whole route phase runs
before any cube's flush, and routing a cube never touches another cube's
record — so when the routing algorithm is invoked on a cube (at position
`l1.length` of `node_list`), that cube still holds exactly its
start-of-cycle state; in particular its queue contains no packet sent
during the current cycle, and `get_packet` inside `route` cannot return
one.  (A robot's step hook runs after the flush phase and CAN receive a
same-cycle packet — see the counterexample.) -/
theorem C2_route_phase_sees_start_queues {α δ : Type} (f : RouteFn α δ)
    (g : NetworkGrid α δ) (l1 : List Nat) (cid : Nat) (l2 : List Nat)
    (hnl : g.node_list = l1 ++ cid :: l2) (hcid : cid ∉ l1) :
    (l1.foldl (NetworkGrid.stepCube f) g).cubeAt cid = g.cubeAt cid := by
  clear hnl
  induction l1 generalizing g with
  | nil => rfl
  | cons h t ih =>
    rw [List.foldl_cons]
    have hne : cid ≠ h := fun e => hcid (by rw [e]; exact List.mem_cons_self h t)
    rw [ih (NetworkGrid.stepCube f g h)
      (fun hm => hcid (List.mem_cons_of_mem _ hm))]
    exact (NetworkGrid.stepCube_frame f g h).2.2.2.2 cid hne

/-- Route hook for the same-cycle scenario: the cube at (0,0,0) sends one
packet EAST; everything else is passive. -/
def sameCycleRouteFn : RouteFn Nat (Option (Nat × Direction)) := fun c =>
  if c.position = (0, 0, 0) then (c, [(.EAST, 42)]) else (c, [])

/-- Helper for `sameCycleRobotFn` (assignment to `cube.data`). -/
def RoutingCube.withData {α δ : Type} (c : RoutingCube α δ) (d : δ) :
    RoutingCube α δ :=
  { c with data := d }

/-- Robot-step hook in the style of `BellmanFordRobot.step`, which calls
`route` — and hence `get_packet` — on the robot's cube during the robot
phase: pop one packet and record what `get_packet` returned in `data`. -/
def sameCycleRobotFn : RouteFn Nat (Option (Nat × Direction)) := fun c =>
  ((c.get_packet).1.withData (c.get_packet).2, [])

/-- A cube at (0,0,0) (id 0) and a robot at (1,0,0) (id 1). -/
def sameCycleGrid : NetworkGrid Nat (Option (Nat × Direction)) :=
  NetworkGrid.add_robot idleHook idleHook none
    (NetworkGrid.add_node idleHook none NetworkGrid.init 0 0 0) 1 0 0

/-- Counterexample to C2 as stated: in `sameCycleGrid`, before the cycle
the robot cube's queue, its west inbound face (heap id 8) and its `data`
are all empty; during ONE call to `step`, the cube at (0,0,0) emits
`send_packet(EAST, 42)` (witnessed by its sent counter), and the robot's
`get_packet` — invoked by its step hook during the robot phase of that
same cycle — returns exactly that packet.  So a packet sent during cycle
C IS returned by `get_packet` on the neighbouring cube during cycle C. -/
theorem C2_counterexample :
    ((sameCycleGrid.cubeAt 1).map (·.packets) = some [] ∧
     sameCycleGrid.faceHeap.get? 8 = some [] ∧
     (sameCycleGrid.cubeAt 1).map (·.data) = some none) ∧
    (((NetworkGrid.step 64 sameCycleRouteFn sameCycleRobotFn
        sameCycleGrid).1.cubeAt 0).map
          (fun c => c.stats.num_pkts_sent_this_cycle) = some 1) ∧
    (((NetworkGrid.step 64 sameCycleRouteFn sameCycleRobotFn
        sameCycleGrid).1.cubeAt 1).map (·.data)
      = some (some (42, Direction.WEST))) := by
  decide

/-- Witness for the amended C2 on `sameCycleGrid`: when the robot cube
(id 1, second in `node_list`) is reached by the route phase, its record —
in particular its queue — is untouched even though cube 0 has already
routed and sent into its face. -/
theorem C2_witness :
    (sameCycleGrid.node_list = [0] ++ 1 :: [] ∧ 1 ∉ [0]) ∧
    (([0].foldl (NetworkGrid.stepCube sameCycleRouteFn)
        sameCycleGrid).cubeAt 1 = sameCycleGrid.cubeAt 1) :=
  ⟨⟨by decide, by decide⟩,
   C2_route_phase_sees_start_queues sameCycleRouteFn sameCycleGrid
     [0] 1 [] (by decide) (by decide)⟩

/-! ### C6 -/

/-- `opposite(d)` (spec §3); in the source this pairing is hard-wired into
the six blocks of `add_node` / `remove_node`. -/
def Direction.opposite : Direction → Direction
  | .UP => .DOWN
  | .DOWN => .UP
  | .WEST => .EAST
  | .EAST => .WEST
  | .NORTH => .SOUTH
  | .SOUTH => .NORTH

lemma Direction.opposite_opposite (d : Direction) : d.opposite.opposite = d := by
  cases d <;> rfl

lemma determine_tx_pos_ne (p : Int × Int × Int) (d : Direction) :
    determine_tx_pos p d ≠ p := by
  obtain ⟨x, y, z⟩ := p
  cases d <;> simp [determine_tx_pos, Prod.ext_iff]

lemma Faces.get_set_self {β : Type} (f : Faces β) (d : Direction) (v : β) :
    (f.set d v).get d = v := by
  cases d <;> rfl

lemma Faces.get_set_other {β : Type} (f : Faces β) (d d' : Direction)
    (v : β) (h : d' ≠ d) : (f.set d v).get d' = f.get d' := by
  cases d <;> cases d' <;> first | rfl | exact absurd rfl h

lemma Faces.ext_of_get {β : Type} (a b : Faces β)
    (h : ∀ d, a.get d = b.get d) : a = b := by
  cases a
  cases b
  have h1 := h .UP
  have h2 := h .DOWN
  have h3 := h .WEST
  have h4 := h .EAST
  have h5 := h .NORTH
  have h6 := h .SOUTH
  simp only [Faces.get] at h1 h2 h3 h4 h5 h6
  simp [h1, h2, h3, h4, h5, h6]

/-- `find?` after `eraseP` of the (unique) matching entry finds nothing. -/
lemma find_none_of_not_mem_keys {κ β : Type} [DecidableEq κ] (p : κ) :
    ∀ (l : List (κ × β)), p ∉ l.map (·.1) →
      l.find? (fun e => e.1 = p) = none := by
  intro l
  induction l with
  | nil => intro _; rfl
  | cons e t ih =>
    intro h
    have he : ¬ (e.1 = p) := fun hh => h (by simp [hh.symm])
    rw [List.find?_cons_of_neg _ (by simpa using he)]
    exact ih (fun hh => h (by simp [hh]))

lemma assoc_erase_self {κ β : Type} [DecidableEq κ] (p : κ) :
    ∀ (l : List (κ × β)), (l.map (·.1)).Nodup →
      (l.eraseP (fun e => e.1 = p)).find? (fun e => e.1 = p) = none := by
  intro l
  induction l with
  | nil => intro _; rfl
  | cons e t ih =>
    intro hnd
    by_cases he : e.1 = p
    · rw [List.eraseP_cons_of_pos (by simpa using he)]
      refine find_none_of_not_mem_keys p t ?_
      subst he
      exact (List.nodup_cons.mp (by simpa using hnd)).1
    · rw [List.eraseP_cons_of_neg (by simpa using he)]
      rw [List.find?_cons_of_neg _ (by simpa using he)]
      exact ih (List.nodup_cons.mp (by simpa using hnd)).2

lemma assoc_erase_other {κ β : Type} [DecidableEq κ] (p q : κ) (h : q ≠ p) :
    ∀ (l : List (κ × β)),
      (l.eraseP (fun e => e.1 = p)).find? (fun e => e.1 = q)
        = l.find? (fun e => e.1 = q) := by
  intro l
  induction l with
  | nil => rfl
  | cons e t ih =>
    by_cases he : e.1 = p
    · rw [List.eraseP_cons_of_pos (by simpa using he)]
      rw [List.find?_cons_of_neg _ (by simp [he]; exact Ne.symm h)]
    · rw [List.eraseP_cons_of_neg (by simpa using he)]
      by_cases heq : e.1 = q
      · rw [List.find?_cons_of_pos _ (by simpa using heq),
          List.find?_cons_of_pos _ (by simpa using heq)]
      · rw [List.find?_cons_of_neg _ (by simpa using heq),
          List.find?_cons_of_neg _ (by simpa using heq)]
        exact ih

lemma assocSet_find_self {κ β : Type} [DecidableEq κ] (p : κ) (v : β) :
    ∀ (l : List (κ × β)), l.find? (fun e => e.1 = p) = none →
      (assocSet l p v).find? (fun e => e.1 = p) = some (p, v) := by
  intro l
  induction l with
  | nil =>
    intro _
    simp [assocSet, List.find?]
  | cons e t ih =>
    intro h
    by_cases he : e.1 = p
    · rw [List.find?_cons_of_pos _ (by simpa using he)] at h
      cases h
    · rw [List.find?_cons_of_neg _ (by simpa using he)] at h
      unfold assocSet
      rw [if_neg he]
      rw [List.find?_cons_of_neg _ (by simpa using he)]
      exact ih h

lemma assocSet_find_other {κ β : Type} [DecidableEq κ] (p q : κ) (v : β)
    (h : q ≠ p) :
    ∀ (l : List (κ × β)),
      (assocSet l p v).find? (fun e => e.1 = q)
        = l.find? (fun e => e.1 = q) := by
  intro l
  induction l with
  | nil =>
    simp [assocSet, List.find?, Ne.symm h]
  | cons e t ih =>
    unfold assocSet
    by_cases he : e.1 = p
    · rw [if_pos he]
      rw [List.find?_cons_of_neg _ (by simp [Ne.symm h]),
        List.find?_cons_of_neg _ (by simp [he]; exact Ne.symm h)]
    · rw [if_neg he]
      by_cases heq : e.1 = q
      · rw [List.find?_cons_of_pos _ (by simpa using heq),
          List.find?_cons_of_pos _ (by simpa using heq)]
      · rw [List.find?_cons_of_neg _ (by simpa using heq),
          List.find?_cons_of_neg _ (by simpa using heq)]
        exact ih

namespace NetworkGrid

variable {α δ : Type}

lemma node_list_modifyCubeAt (g : NetworkGrid α δ) (cid : Nat)
    (f : RoutingCube α δ → RoutingCube α δ) :
    (g.modifyCubeAt cid f).node_list = g.node_list := by
  unfold modifyCubeAt
  cases g.cubeHeap.get? cid <;> rfl

lemma robot_list_modifyCubeAt (g : NetworkGrid α δ) (cid : Nat)
    (f : RoutingCube α δ → RoutingCube α δ) :
    (g.modifyCubeAt cid f).robot_list = g.robot_list := by
  unfold modifyCubeAt
  cases g.cubeHeap.get? cid <;> rfl

lemma get_node_congr (g₁ g₂ : NetworkGrid α δ) (q : Int × Int × Int)
    (h : g₁.node_map = g₂.node_map) : g₁.get_node q = g₂.get_node q := by
  unfold get_node
  rw [h]

lemma remove_node_clear_frame (g : NetworkGrid α δ) (q : Int × Int × Int)
    (s : Direction) :
    (remove_node_clear g q s).node_map = g.node_map ∧
    (remove_node_clear g q s).node_list = g.node_list ∧
    (remove_node_clear g q s).robot_list = g.robot_list ∧
    (remove_node_clear g q s).cubeHeap.length = g.cubeHeap.length := by
  unfold remove_node_clear
  cases g.get_node q with
  | none => exact ⟨rfl, rfl, rfl, rfl⟩
  | some nid =>
    exact ⟨node_map_modifyCubeAt _ _ _, node_list_modifyCubeAt _ _ _,
      robot_list_modifyCubeAt _ _ _, length_modifyCubeAt _ _ _⟩

/-- The clearing block for position `q` sets the looked-up neighbour's
slot `s` to `None`. -/
lemma remove_node_clear_sets (g : NetworkGrid α δ) (q : Int × Int × Int)
    (s : Direction) (nid : Nat)
    (hl : g.get_node q = some nid) (hc : nid < g.cubeHeap.length) :
    ((remove_node_clear g q s).cubeAt nid).map
      (fun c => c.ll_references.get s) = some none := by
  unfold remove_node_clear
  rw [hl]
  dsimp only
  have hcs : g.cubeHeap.get? nid = some (g.cubeHeap.get ⟨nid, hc⟩) :=
    List.get?_eq_get hc
  unfold modifyCubeAt
  rw [hcs]
  rw [cubeAt_setCubeAt_self _ _ _ _ hcs]
  simp [Faces.get_set_self]

/-- Clearing blocks only ever write `None`: a slot already cleared stays
cleared. -/
lemma remove_node_clear_keeps (g : NetworkGrid α δ) (q : Int × Int × Int)
    (s' : Direction) (nid : Nat) (s : Direction)
    (h : (g.cubeAt nid).map (fun c => c.ll_references.get s) = some none) :
    ((remove_node_clear g q s').cubeAt nid).map
      (fun c => c.ll_references.get s) = some none := by
  unfold remove_node_clear
  cases hl : g.get_node q with
  | none => exact h
  | some nid₂ =>
    dsimp only
    unfold modifyCubeAt
    by_cases hne : nid = nid₂
    · subst hne
      cases hcs : g.cubeHeap.get? nid with
      | none => exact h
      | some c =>
        rw [cubeAt_setCubeAt_self _ _ _ _ hcs]
        rw [show g.cubeAt nid = some c from hcs] at h
        simp only [Option.map_some] at h ⊢
        rcases eq_or_ne s s' with rfl | hss
        · simp [Faces.get_set_self]
        · simpa [Faces.get_set_other _ _ _ _ hss] using h
    · cases hcs : g.cubeHeap.get? nid₂ with
      | none => exact h
      | some c =>
        rw [cubeAt_setCubeAt_ne _ _ _ _ hne]
        exact h

end NetworkGrid

namespace NetworkGrid

variable {α δ : Type}

/-- The six reference-clearing blocks of `remove_node`, in source order. -/
def remove_node_clears (g : NetworkGrid α δ) (x y z : Int) :
    NetworkGrid α δ :=
  remove_node_clear (remove_node_clear (remove_node_clear
    (remove_node_clear (remove_node_clear (remove_node_clear g
      (x, y, z + 1) .DOWN)
      (x, y, z - 1) .UP)
      (x, y + 1, z) .SOUTH)
      (x, y - 1, z) .NORTH)
      (x + 1, y, z) .WEST)
      (x - 1, y, z) .EAST

/-- Evaluation of `remove_node` on a present node: pop the position from
the node map, drop the node from `node_list`, then run the six clearing
blocks. -/
lemma remove_node_eval (g : NetworkGrid α δ) (x y z : Int) (cid : Nat)
    (hc : g.get_node (x, y, z) = some cid) :
    g.remove_node x y z = remove_node_clears
      { g with
        node_map :=
          g.node_map.eraseP (fun e => e.1 = ((x, y, z) : Int × Int × Int))
        node_list := g.node_list.erase cid } x y z := by
  unfold NetworkGrid.remove_node remove_node_clears
  rw [hc]

/-- Combined effect of the six clearing blocks: the list structure of the
grid is untouched, and the looked-up neighbour in every direction has its
slot facing the centre position cleared. -/
lemma remove_node_clears_spec (g₀ : NetworkGrid α δ) (x y z : Int) :
    (remove_node_clears g₀ x y z).node_map = g₀.node_map ∧
    (remove_node_clears g₀ x y z).node_list = g₀.node_list ∧
    (remove_node_clears g₀ x y z).robot_list = g₀.robot_list ∧
    (remove_node_clears g₀ x y z).cubeHeap.length = g₀.cubeHeap.length ∧
    ∀ (d : Direction) (nid : Nat),
      g₀.get_node (determine_tx_pos (x, y, z) d) = some nid →
      nid < g₀.cubeHeap.length →
      ((remove_node_clears g₀ x y z).cubeAt nid).map
        (fun c => c.ll_references.get d.opposite) = some none := by
  unfold remove_node_clears
  set g1 := remove_node_clear g₀ (x, y, z + 1) .DOWN with hg1
  set g2 := remove_node_clear g1 (x, y, z - 1) .UP with hg2
  set g3 := remove_node_clear g2 (x, y + 1, z) .SOUTH with hg3
  set g4 := remove_node_clear g3 (x, y - 1, z) .NORTH with hg4
  set g5 := remove_node_clear g4 (x + 1, y, z) .WEST with hg5
  set g6 := remove_node_clear g5 (x - 1, y, z) .EAST with hg6
  obtain ⟨a1, a2, a3, a4⟩ := remove_node_clear_frame g₀ (x, y, z + 1) .DOWN
  obtain ⟨b1, b2, b3, b4⟩ := remove_node_clear_frame g1 (x, y, z - 1) .UP
  obtain ⟨c1, c2, c3, c4⟩ := remove_node_clear_frame g2 (x, y + 1, z) .SOUTH
  obtain ⟨d1, d2, d3, d4⟩ := remove_node_clear_frame g3 (x, y - 1, z) .NORTH
  obtain ⟨e1, e2, e3, e4⟩ := remove_node_clear_frame g4 (x + 1, y, z) .WEST
  obtain ⟨f1, f2, f3, f4⟩ := remove_node_clear_frame g5 (x - 1, y, z) .EAST
  refine ⟨by rw [f1, e1, d1, c1, b1, a1],
    by rw [f2, e2, d2, c2, b2, a2],
    by rw [f3, e3, d3, c3, b3, a3],
    by rw [f4, e4, d4, c4, b4, a4], ?_⟩
  intro d nid hl hlt
  cases d with
  | UP =>
    have h := remove_node_clear_sets g₀ (x, y, z + 1) .DOWN nid
      (by simpa [determine_tx_pos] using hl) hlt
    rw [← hg1] at h
    exact remove_node_clear_keeps _ _ _ _ _
      (remove_node_clear_keeps _ _ _ _ _ (remove_node_clear_keeps _ _ _ _ _
        (remove_node_clear_keeps _ _ _ _ _
          (remove_node_clear_keeps _ _ _ _ _ h))))
  | DOWN =>
    have hl1 : g1.get_node (x, y, z - 1) = some nid := by
      rw [get_node_congr g1 g₀ _ a1]
      simpa [determine_tx_pos] using hl
    have h := remove_node_clear_sets g1 (x, y, z - 1) .UP nid hl1
      (by rw [a4]; exact hlt)
    rw [← hg2] at h
    exact remove_node_clear_keeps _ _ _ _ _
      (remove_node_clear_keeps _ _ _ _ _ (remove_node_clear_keeps _ _ _ _ _
        (remove_node_clear_keeps _ _ _ _ _ h)))
  | NORTH =>
    have hl2 : g2.get_node (x, y + 1, z) = some nid := by
      rw [get_node_congr g2 g1 _ b1, get_node_congr g1 g₀ _ a1]
      simpa [determine_tx_pos] using hl
    have h := remove_node_clear_sets g2 (x, y + 1, z) .SOUTH nid hl2
      (by rw [b4, a4]; exact hlt)
    rw [← hg3] at h
    exact remove_node_clear_keeps _ _ _ _ _
      (remove_node_clear_keeps _ _ _ _ _ (remove_node_clear_keeps _ _ _ _ _ h))
  | SOUTH =>
    have hl3 : g3.get_node (x, y - 1, z) = some nid := by
      rw [get_node_congr g3 g2 _ c1, get_node_congr g2 g1 _ b1,
        get_node_congr g1 g₀ _ a1]
      simpa [determine_tx_pos] using hl
    have h := remove_node_clear_sets g3 (x, y - 1, z) .NORTH nid hl3
      (by rw [c4, b4, a4]; exact hlt)
    rw [← hg4] at h
    exact remove_node_clear_keeps _ _ _ _ _ (remove_node_clear_keeps _ _ _ _ _ h)
  | EAST =>
    have hl4 : g4.get_node (x + 1, y, z) = some nid := by
      rw [get_node_congr g4 g3 _ d1, get_node_congr g3 g2 _ c1,
        get_node_congr g2 g1 _ b1, get_node_congr g1 g₀ _ a1]
      simpa [determine_tx_pos] using hl
    have h := remove_node_clear_sets g4 (x + 1, y, z) .WEST nid hl4
      (by rw [d4, c4, b4, a4]; exact hlt)
    rw [← hg5] at h
    exact remove_node_clear_keeps _ _ _ _ _ h
  | WEST =>
    have hl5 : g5.get_node (x - 1, y, z) = some nid := by
      rw [get_node_congr g5 g4 _ e1, get_node_congr g4 g3 _ d1,
        get_node_congr g3 g2 _ c1, get_node_congr g2 g1 _ b1,
        get_node_congr g1 g₀ _ a1]
      simpa [determine_tx_pos] using hl
    exact remove_node_clear_sets g5 (x - 1, y, z) .EAST nid hl5
      (by rw [e4, d4, c4, b4, a4]; exact hlt)

end NetworkGrid

/-- C6 (amended): `remove_node(x,y,z)` on a present node deletes the
position from the node map, removes the node from `node_list` (the list
behind the `get_node_by_id` lookup), and clears each surrounding cube's
reciprocal neighbour reference toward the removed position — but it does
NOT remove the node's robot from the grid's robot list: `robot_list` is
left unchanged (`remove_node_by_id` resolves through the same code). -/
theorem C6_remove_node_amended {α δ : Type} (g : NetworkGrid α δ)
    (x y z : Int) (cid : Nat)
    (hc : g.get_node (x, y, z) = some cid)
    (hkeys : (g.node_map.map (·.1)).Nodup) :
    (g.remove_node x y z).get_node (x, y, z) = none ∧
    (g.remove_node x y z).node_list = g.node_list.erase cid ∧
    (g.remove_node x y z).robot_list = g.robot_list ∧
    ∀ (d : Direction) (nid : Nat),
      g.get_node (determine_tx_pos (x, y, z) d) = some nid →
      nid < g.cubeHeap.length →
      ((g.remove_node x y z).cubeAt nid).map
        (fun c => c.ll_references.get d.opposite) = some none := by
  rw [NetworkGrid.remove_node_eval g x y z cid hc]
  obtain ⟨m1, m2, m3, m4, m5⟩ := NetworkGrid.remove_node_clears_spec
    { g with
      node_map :=
        g.node_map.eraseP (fun e => e.1 = ((x, y, z) : Int × Int × Int))
      node_list := g.node_list.erase cid } x y z
  refine ⟨?_, by rw [m2], by rw [m3], ?_⟩
  · unfold NetworkGrid.get_node
    rw [m1]
    dsimp only
    rw [assoc_erase_self (((x, y, z)) : Int × Int × Int) g.node_map hkeys]
    rfl
  · intro d nid hl hlt
    refine m5 d nid ?_ hlt
    show (List.find? (fun e => e.1 = determine_tx_pos (x, y, z) d)
      (List.eraseP (fun e => e.1 = ((x, y, z) : Int × Int × Int))
        g.node_map)).map (fun e => e.2) = some nid
    rw [assoc_erase_other ((x, y, z) : Int × Int × Int)
      (determine_tx_pos (x, y, z) d) (determine_tx_pos_ne _ d) g.node_map]
    exact hl

/-- A grid holding a single robot at (0,0,0) (cube id 0). -/
def loneRobotGrid : NetworkGrid Nat Unit :=
  NetworkGrid.add_robot idleHook idleHook () NetworkGrid.init 0 0 0

/-- Counterexample to C6 as stated: removing the robot's node deletes the
node itself (empty node map and node list afterwards = id lookup cleared)
but leaves the robot in `robot_list`, so the grid keeps stepping a robot
whose cube is no longer part of the network. -/
theorem C6_counterexample :
    loneRobotGrid.robot_list = [0] ∧
    (loneRobotGrid.remove_node 0 0 0).node_map = [] ∧
    (loneRobotGrid.remove_node 0 0 0).node_list = [] ∧
    (loneRobotGrid.remove_node 0 0 0).robot_list = [0] := by
  decide

/-- Witness for the amended C6 on a two-node grid: removing (1,0,0)
deletes it from the maps and clears cube 0's EAST reference, while the
robot list (empty here) is untouched. -/
theorem C6_witness :
    (twoNodeGrid.get_node (1, 0, 0) = some 1 ∧
     (twoNodeGrid.node_map.map (·.1)).Nodup ∧
     twoNodeGrid.get_node (determine_tx_pos (1, 0, 0) .WEST) = some 0 ∧
     0 < twoNodeGrid.cubeHeap.length) ∧
    ((twoNodeGrid.remove_node 1 0 0).get_node (1, 0, 0) = none ∧
     (twoNodeGrid.remove_node 1 0 0).node_list = [0] ∧
     (twoNodeGrid.remove_node 1 0 0).robot_list = [] ∧
     ((twoNodeGrid.remove_node 1 0 0).cubeAt 0).map
        (fun c => c.ll_references.get Direction.WEST.opposite)
       = some none) := by
  have h := C6_remove_node_amended twoNodeGrid 1 0 0 1 (by decide) (by decide)
  refine ⟨⟨by decide, by decide, by decide, by decide⟩,
    h.1, ?_, h.2.2.1, h.2.2.2 .WEST 0 (by decide) (by decide)⟩
  rw [h.2.1]
  decide

/-! ### C5 -/

namespace NetworkGrid

variable {α δ : Type}

lemma allocCube_spec (g : NetworkGrid α δ) (pos : Int × Int × Int)
    (idArg : Option Int) (d0 : δ) :
    (allocCube g pos idArg d0).2 = g.cubeHeap.length ∧
    (allocCube g pos idArg d0).1.node_map = g.node_map ∧
    (allocCube g pos idArg d0).1.node_list = g.node_list ∧
    (allocCube g pos idArg d0).1.robot_list = g.robot_list ∧
    (allocCube g pos idArg d0).1.cubeHeap.length = g.cubeHeap.length + 1 ∧
    ∀ nid, nid < g.cubeHeap.length →
      (allocCube g pos idArg d0).1.cubeAt nid = g.cubeAt nid := by
  unfold allocCube
  cases idArg with
  | none =>
    refine ⟨rfl, rfl, rfl, rfl, by simp, fun nid h => ?_⟩
    show (g.cubeHeap ++ [_]).get? nid = g.cubeHeap.get? nid
    exact List.get?_append h
  | some i =>
    refine ⟨rfl, rfl, rfl, rfl, by simp, fun nid h => ?_⟩
    show (g.cubeHeap ++ [_]).get? nid = g.cubeHeap.get? nid
    exact List.get?_append h

lemma add_node_layers_frame (g : NetworkGrid α δ) (x y z : Int) (cid : Nat) :
    (add_node_layers g x y z cid).node_map = g.node_map ∧
    (add_node_layers g x y z cid).node_list = g.node_list ∧
    (add_node_layers g x y z cid).robot_list = g.robot_list ∧
    (add_node_layers g x y z cid).cubeHeap = g.cubeHeap := by
  unfold add_node_layers
  refine ⟨?_, ?_, ?_, ?_⟩ <;>
    (repeat' (first | split | dsimp only)) <;> rfl

lemma add_node_wire_frame (g : NetworkGrid α δ) (cid : Nat)
    (q : Int × Int × Int) (dNbr dNode : Direction) :
    (add_node_wire g cid q dNbr dNode).node_map = g.node_map ∧
    (add_node_wire g cid q dNbr dNode).node_list = g.node_list ∧
    (add_node_wire g cid q dNbr dNode).robot_list = g.robot_list ∧
    (add_node_wire g cid q dNbr dNode).cubeHeap.length
      = g.cubeHeap.length := by
  unfold add_node_wire
  split
  · exact ⟨rfl, rfl, rfl, rfl⟩
  · split
    · refine ⟨?_, ?_, ?_, ?_⟩ <;>
        simp [node_map_modifyCubeAt, node_list_modifyCubeAt,
          robot_list_modifyCubeAt, length_modifyCubeAt]
    · exact ⟨rfl, rfl, rfl, rfl⟩

/-- A wiring block leaves a cube's reference slot alone unless that cube
is the one looked up at `q`, the slot is `dNbr`, and the cube is not the
freshly inserted one. -/
lemma add_node_wire_slot_preserve (g : NetworkGrid α δ) (cid : Nat)
    (q : Int × Int × Int) (dNbr dNode : Direction) (nid : Nat)
    (s : Direction) (hncid : nid ≠ cid)
    (hcond : g.get_node q ≠ some nid ∨ s ≠ dNbr) :
    ((add_node_wire g cid q dNbr dNode).cubeAt nid).map
        (fun c => c.ll_references.get s)
      = (g.cubeAt nid).map (fun c => c.ll_references.get s) := by
  unfold add_node_wire
  cases hl : g.get_node q with
  | none => rfl
  | some nid₂ =>
    dsimp only
    cases hcc : g.cubeHeap.get? cid with
    | none =>
      cases g.cubeHeap.get? nid₂ <;> rfl
    | some node =>
      cases hcn : g.cubeHeap.get? nid₂ with
      | none => rfl
      | some nbr =>
        rw [cubeAt_modifyCubeAt_ne _ _ _ _ hncid]
        by_cases hne : nid₂ = nid
        · subst hne
          have hss : s ≠ dNbr := by
            rcases hcond with hcl | hsr
            · exact absurd hl hcl
            · exact hsr
          unfold modifyCubeAt
          rw [hcn]
          rw [cubeAt_setCubeAt_self _ _ _ _ hcn]
          rw [show g.cubeAt nid₂ = some nbr from hcn]
          simp only [Option.map_some']
          rw [Faces.get_set_other _ _ _ _ hss]
        · rw [cubeAt_modifyCubeAt_ne _ _ _ _ (Ne.symm hne)]

/-- A clearing block leaves a cube's reference slot alone unless that
cube is the one looked up at `q` and the slot is the cleared one. -/
lemma remove_node_clear_slot_preserve (g : NetworkGrid α δ)
    (q : Int × Int × Int) (s' : Direction) (nid : Nat) (s : Direction)
    (hcond : g.get_node q ≠ some nid ∨ s ≠ s') :
    ((remove_node_clear g q s').cubeAt nid).map
        (fun c => c.ll_references.get s)
      = (g.cubeAt nid).map (fun c => c.ll_references.get s) := by
  unfold remove_node_clear
  cases hl : g.get_node q with
  | none => rfl
  | some nid₂ =>
    dsimp only
    by_cases hne : nid₂ = nid
    · subst hne
      have hss : s ≠ s' := by
        rcases hcond with hcl | hsr
        · exact absurd hl hcl
        · exact hsr
      unfold modifyCubeAt
      cases hcn : g.cubeHeap.get? nid₂ with
      | none => rfl
      | some c =>
        rw [cubeAt_setCubeAt_self _ _ _ _ hcn]
        rw [show g.cubeAt nid₂ = some c from hcn]
        simp only [Option.map_some']
        rw [Faces.get_set_other _ _ _ _ hss]
    · rw [cubeAt_modifyCubeAt_ne _ _ _ _ (Ne.symm hne)]

/-- The body of `add_node` between the heap allocation and the
`power_on` hook: map/list insertion, layer bookkeeping, and the six
wiring blocks, in source order. -/
def add_node_body (g : NetworkGrid α δ) (x y z : Int) (cid : Nat) :
    NetworkGrid α δ :=
  let g := { g with node_map := assocSet g.node_map (x, y, z) cid }
  let g := { g with node_list := g.node_list ++ [cid] }
  let g := add_node_layers g x y z cid
  let g := add_node_wire g cid (x, y, z + 1) .DOWN .UP
  let g := add_node_wire g cid (x, y, z - 1) .UP .DOWN
  let g := add_node_wire g cid (x, y + 1, z) .SOUTH .NORTH
  let g := add_node_wire g cid (x, y - 1, z) .NORTH .SOUTH
  let g := add_node_wire g cid (x + 1, y, z) .WEST .EAST
  add_node_wire g cid (x - 1, y, z) .EAST .WEST

/-- Evaluation of `add_node` with no pre-built cube. -/
lemma add_node_eval (pOn : RouteFn α δ) (d0 : δ) (g : NetworkGrid α δ)
    (x y z : Int) :
    add_node pOn d0 g x y z
      = applyRouteFnAt pOn
          (add_node_body (allocCube g (x, y, z) none d0).1 x y z
            (allocCube g (x, y, z) none d0).2)
          (allocCube g (x, y, z) none d0).2 := by
  unfold add_node add_node_body
  rfl

/-- Structural facts about `add_node_body`: the node map gains exactly
the new position, the heap length and robot list are unchanged, and a
pre-existing cube's reference slot is untouched unless it is a looked-up
neighbour's slot facing the new position. -/
lemma add_node_body_spec (g₁ : NetworkGrid α δ) (x y z : Int) (cid : Nat) :
    (add_node_body g₁ x y z cid).node_map
      = assocSet g₁.node_map (x, y, z) cid ∧
    (add_node_body g₁ x y z cid).robot_list = g₁.robot_list ∧
    (add_node_body g₁ x y z cid).cubeHeap.length
      = g₁.cubeHeap.length ∧
    ∀ (s : Direction) (nid : Nat), nid ≠ cid →
      g₁.get_node (determine_tx_pos (x, y, z) s.opposite) ≠ some nid →
      ((add_node_body g₁ x y z cid).cubeAt nid).map
          (fun c => c.ll_references.get s)
        = (g₁.cubeAt nid).map (fun c => c.ll_references.get s) := by
  unfold add_node_body
  set p : Int × Int × Int := (x, y, z) with hp
  set gm : NetworkGrid α δ :=
    { g₁ with
      node_map := assocSet g₁.node_map p cid
      node_list := g₁.node_list ++ [cid] } with hgm
  set gl := add_node_layers gm x y z cid with hgl
  obtain ⟨l1, l2, l3, l4⟩ := add_node_layers_frame gm x y z cid
  set w1 := add_node_wire gl cid (x, y, z + 1) .DOWN .UP with hw1
  set w2 := add_node_wire w1 cid (x, y, z - 1) .UP .DOWN with hw2
  set w3 := add_node_wire w2 cid (x, y + 1, z) .SOUTH .NORTH with hw3
  set w4 := add_node_wire w3 cid (x, y - 1, z) .NORTH .SOUTH with hw4
  set w5 := add_node_wire w4 cid (x + 1, y, z) .WEST .EAST with hw5
  obtain ⟨a1, a2, a3, a4⟩ := add_node_wire_frame gl cid (x, y, z + 1) .DOWN .UP
  obtain ⟨b1, b2, b3, b4⟩ := add_node_wire_frame w1 cid (x, y, z - 1) .UP .DOWN
  obtain ⟨c1, c2, c3, c4⟩ := add_node_wire_frame w2 cid (x, y + 1, z) .SOUTH .NORTH
  obtain ⟨d1, d2, d3, d4⟩ := add_node_wire_frame w3 cid (x, y - 1, z) .NORTH .SOUTH
  obtain ⟨e1, e2, e3, e4⟩ := add_node_wire_frame w4 cid (x + 1, y, z) .WEST .EAST
  obtain ⟨f1, f2, f3, f4⟩ := add_node_wire_frame w5 cid (x - 1, y, z) .EAST .WEST
  have hmap : ∀ q : Int × Int × Int, w5.get_node q = gm.get_node q := by
    intro q
    rw [get_node_congr w5 w4 _ e1, get_node_congr w4 w3 _ d1,
      get_node_congr w3 w2 _ c1, get_node_congr w2 w1 _ b1,
      get_node_congr w1 gl _ a1, get_node_congr gl gm _ l1]
  have hmapo : ∀ q : Int × Int × Int, q ≠ p →
      gm.get_node q = g₁.get_node q := by
    intro q hq
    show (List.find? _ (assocSet g₁.node_map p cid)).map _ = _
    rw [assocSet_find_other p q cid hq g₁.node_map]
    rfl
  refine ⟨?_, ?_, ?_, ?_⟩
  · rw [f1, e1, d1, c1, b1, a1, l1]
  · rw [f3, e3, d3, c3, b3, a3, l3]
  · rw [f4, e4, d4, c4, b4, a4]
    rw [show gl.cubeHeap = gm.cubeHeap from l4]
  · intro s nid hncid hmiss
    have hlookup : ∀ (g' : NetworkGrid α δ) (d'' : Direction),
        (∀ q, g'.get_node q = gm.get_node q) → d'' = s.opposite →
        g'.get_node (determine_tx_pos p d'') ≠ some nid := by
      intro g' d'' hgq hd
      rw [hgq, hmapo _ (determine_tx_pos_ne p d''), hd]
      exact hmiss
    have hmap1 : ∀ q : Int × Int × Int, gl.get_node q = gm.get_node q :=
      fun q => get_node_congr gl gm _ l1
    have hmap2 : ∀ q : Int × Int × Int, w1.get_node q = gm.get_node q :=
      fun q => (get_node_congr w1 gl _ a1).trans (hmap1 q)
    have hmap3 : ∀ q : Int × Int × Int, w2.get_node q = gm.get_node q :=
      fun q => (get_node_congr w2 w1 _ b1).trans (hmap2 q)
    have hmap4 : ∀ q : Int × Int × Int, w3.get_node q = gm.get_node q :=
      fun q => (get_node_congr w3 w2 _ c1).trans (hmap3 q)
    have hmap5 : ∀ q : Int × Int × Int, w4.get_node q = gm.get_node q :=
      fun q => (get_node_congr w4 w3 _ d1).trans (hmap4 q)
    have hmap6 : ∀ q : Int × Int × Int, w5.get_node q = gm.get_node q := hmap
    have step : ∀ (gprev : NetworkGrid α δ) (q : Int × Int × Int)
        (dNbr dNode : Direction),
        (∀ q', gprev.get_node q' = gm.get_node q') →
        q = determine_tx_pos p dNbr.opposite →
        ((add_node_wire gprev cid q dNbr dNode).cubeAt nid).map
            (fun c => c.ll_references.get s)
          = (gprev.cubeAt nid).map (fun c => c.ll_references.get s) := by
      intro gprev q dNbr dNode hgq hqd
      by_cases hds : s = dNbr
      · subst hds
        refine add_node_wire_slot_preserve gprev cid q _ dNode nid s hncid
          (Or.inl ?_)
        rw [hqd]
        exact hlookup gprev s.opposite hgq rfl
      · exact add_node_wire_slot_preserve gprev cid q dNbr dNode nid s hncid
          (Or.inr hds)
    rw [step w5 _ .EAST .WEST hmap6 (by simp [determine_tx_pos, Direction.opposite])]
    rw [step w4 _ .WEST .EAST hmap5 (by simp [determine_tx_pos, Direction.opposite])]
    rw [step w3 _ .NORTH .SOUTH hmap4 (by simp [determine_tx_pos, Direction.opposite])]
    rw [step w2 _ .SOUTH .NORTH hmap3 (by simp [determine_tx_pos, Direction.opposite])]
    rw [step w1 _ .UP .DOWN hmap2 (by simp [determine_tx_pos, Direction.opposite])]
    rw [step gl _ .DOWN .UP hmap1 (by simp [determine_tx_pos, Direction.opposite])]
    rw [show gl.cubeAt nid = gm.cubeAt nid by
      unfold cubeAt; rw [show gl.cubeHeap = gm.cubeHeap from l4]]
    rfl

/-- The six clearing blocks leave a cube's slot `s` alone when the cube
is not the looked-up neighbour on the matching side. -/
lemma remove_node_clears_slot_preserve (g₀ : NetworkGrid α δ)
    (x y z : Int) (nid : Nat) (s : Direction)
    (hmiss : g₀.get_node (determine_tx_pos (x, y, z) s.opposite)
      ≠ some nid) :
    ((remove_node_clears g₀ x y z).cubeAt nid).map
        (fun c => c.ll_references.get s)
      = (g₀.cubeAt nid).map (fun c => c.ll_references.get s) := by
  unfold remove_node_clears
  set p : Int × Int × Int := (x, y, z) with hp
  set g1 := remove_node_clear g₀ (x, y, z + 1) .DOWN with hg1
  set g2 := remove_node_clear g1 (x, y, z - 1) .UP with hg2
  set g3 := remove_node_clear g2 (x, y + 1, z) .SOUTH with hg3
  set g4 := remove_node_clear g3 (x, y - 1, z) .NORTH with hg4
  set g5 := remove_node_clear g4 (x + 1, y, z) .WEST with hg5
  obtain ⟨a1, _, _, _⟩ := remove_node_clear_frame g₀ (x, y, z + 1) .DOWN
  obtain ⟨b1, _, _, _⟩ := remove_node_clear_frame g1 (x, y, z - 1) .UP
  obtain ⟨c1, _, _, _⟩ := remove_node_clear_frame g2 (x, y + 1, z) .SOUTH
  obtain ⟨d1, _, _, _⟩ := remove_node_clear_frame g3 (x, y - 1, z) .NORTH
  obtain ⟨e1, _, _, _⟩ := remove_node_clear_frame g4 (x + 1, y, z) .WEST
  have hmap1 : ∀ q : Int × Int × Int, g1.get_node q = g₀.get_node q :=
    fun q => get_node_congr g1 g₀ _ a1
  have hmap2 : ∀ q : Int × Int × Int, g2.get_node q = g₀.get_node q :=
    fun q => (get_node_congr g2 g1 _ b1).trans (hmap1 q)
  have hmap3 : ∀ q : Int × Int × Int, g3.get_node q = g₀.get_node q :=
    fun q => (get_node_congr g3 g2 _ c1).trans (hmap2 q)
  have hmap4 : ∀ q : Int × Int × Int, g4.get_node q = g₀.get_node q :=
    fun q => (get_node_congr g4 g3 _ d1).trans (hmap3 q)
  have hmap5 : ∀ q : Int × Int × Int, g5.get_node q = g₀.get_node q :=
    fun q => (get_node_congr g5 g4 _ e1).trans (hmap4 q)
  have step : ∀ (gprev : NetworkGrid α δ) (q : Int × Int × Int)
      (s'' : Direction),
      (∀ q', gprev.get_node q' = g₀.get_node q') →
      q = determine_tx_pos p s''.opposite →
      ((remove_node_clear gprev q s'').cubeAt nid).map
          (fun c => c.ll_references.get s)
        = (gprev.cubeAt nid).map (fun c => c.ll_references.get s) := by
    intro gprev q s'' hgq hqd
    by_cases hds : s = s''
    · subst hds
      refine remove_node_clear_slot_preserve gprev q _ nid s (Or.inl ?_)
      rw [hqd, hgq]
      exact hmiss
    · exact remove_node_clear_slot_preserve gprev q s'' nid s (Or.inr hds)
  rw [step g5 _ .EAST hmap5 (by simp [determine_tx_pos, Direction.opposite])]
  rw [step g4 _ .WEST hmap4 (by simp [determine_tx_pos, Direction.opposite])]
  rw [step g3 _ .NORTH hmap3 (by simp [determine_tx_pos, Direction.opposite])]
  rw [step g2 _ .SOUTH hmap2 (by simp [determine_tx_pos, Direction.opposite])]
  rw [step g1 _ .UP hmap1 (by simp [determine_tx_pos, Direction.opposite])]
  rw [step g₀ _ .DOWN (fun q => rfl)
    (by simp [determine_tx_pos, Direction.opposite])]

end NetworkGrid

set_option maxHeartbeats 1600000 in
/-- C5 (amended): provided no node is present at `p = (x,y,z)` and every
cube adjacent to `p` has an absent reference toward `p` (the wiring
invariant for an empty position), `add_node` at `p` followed by
`remove_node` at `p` restores the neighbour-face reference state of every
cube adjacent to `p`: each such cube ends with exactly the
`ll_references` it had before the add.  (Without the emptiness proviso
the round trip is NOT restorative — see the counterexample, where adding
on top of an occupied position and removing leaves the neighbour's
reference cleared instead of pointing at the original cube.) -/
theorem C5_add_remove_restores {α δ : Type} (pOn : RouteFn α δ) (d0 : δ)
    (g : NetworkGrid α δ) (x y z : Int) (d : Direction) (nid : Nat)
    (c₀ : RoutingCube α δ)
    (hfree : g.get_node (x, y, z) = none)
    (hrefs : ∀ (d' : Direction) (nid' : Nat) (c₀' : RoutingCube α δ),
      g.get_node (determine_tx_pos (x, y, z) d') = some nid' →
      g.cubeAt nid' = some c₀' →
      c₀'.ll_references.get d'.opposite = none)
    (hd : g.get_node (determine_tx_pos (x, y, z) d) = some nid)
    (hcube : g.cubeAt nid = some c₀) :
    ∃ c', ((NetworkGrid.add_node pOn d0 g x y z).remove_node x y z).cubeAt nid
        = some c' ∧ c'.ll_references = c₀.ll_references := by
  set p : Int × Int × Int := (x, y, z) with hp
  obtain ⟨s0, s1, s2, s3, s4, s5⟩ := NetworkGrid.allocCube_spec g p none d0
  set A1 := (NetworkGrid.allocCube g p none d0).1 with hA1
  set cid := (NetworkGrid.allocCube g p none d0).2 with hcid
  obtain ⟨m1, m2, m3, m4⟩ := NetworkGrid.add_node_body_spec A1 x y z cid
  set gB := NetworkGrid.add_node_body A1 x y z cid with hgB
  obtain ⟨r1, r2, r3, r4, r5⟩ := NetworkGrid.applyRouteFnAt_frame pOn gB cid
  set gA := NetworkGrid.applyRouteFnAt pOn gB cid with hgA
  have haddeval : NetworkGrid.add_node pOn d0 g x y z = gA :=
    NetworkGrid.add_node_eval pOn d0 g x y z
  have hA1map : ∀ q : Int × Int × Int, A1.get_node q = g.get_node q :=
    fun q => NetworkGrid.get_node_congr A1 g q s1
  have hAmap : gA.node_map = assocSet g.node_map p cid := by
    rw [r1, m1, s1]
  have hfree' : g.node_map.find?
      (fun e => e.1 = p) = none := by
    have := hfree
    unfold NetworkGrid.get_node at this
    exact Option.map_eq_none'.mp this
  have hfind : gA.get_node p = some cid := by
    unfold NetworkGrid.get_node
    rw [hAmap, assocSet_find_self p cid g.node_map hfree']
    rfl
  have hAq : ∀ q : Int × Int × Int, q ≠ p →
      gA.get_node q = g.get_node q := by
    intro q hq
    unfold NetworkGrid.get_node
    rw [hAmap, assocSet_find_other p q cid hq g.node_map]
  have hlen_g : nid < g.cubeHeap.length := (List.get?_eq_some.mp hcube).1
  have hcid_len : cid = g.cubeHeap.length := s0
  have hncid : nid ≠ cid := by omega
  have hlenA : gA.cubeHeap.length = g.cubeHeap.length + 1 := by
    rw [r4, m3, s4]
  rw [haddeval, NetworkGrid.remove_node_eval gA x y z cid hfind]
  set gE : NetworkGrid α δ :=
    { gA with
      node_map := gA.node_map.eraseP (fun e => e.1 = p)
      node_list := gA.node_list.erase cid } with hgE
  have hEcube : ∀ m, gE.cubeAt m = gA.cubeAt m := fun _ => rfl
  have hEq : ∀ q : Int × Int × Int, q ≠ p →
      gE.get_node q = g.get_node q := by
    intro q hq
    show ((gA.node_map.eraseP (fun e => e.1 = p)).find?
      (fun e => e.1 = q)).map (fun e => e.2) = _
    rw [assoc_erase_other p q hq gA.node_map]
    exact hAq q hq
  have hlenE : gE.cubeHeap.length = g.cubeHeap.length + 1 := hlenA
  obtain ⟨w1, w2, w3, w4, w5⟩ := NetworkGrid.remove_node_clears_spec gE x y z
  have hltF : nid < (NetworkGrid.remove_node_clears gE x y z).cubeHeap.length := by
    rw [w4, hlenE]
    omega
  refine ⟨(NetworkGrid.remove_node_clears gE x y z).cubeHeap.get ⟨nid, hltF⟩,
    List.get?_eq_get hltF, ?_⟩
  set c' := (NetworkGrid.remove_node_clears gE x y z).cubeHeap.get ⟨nid, hltF⟩
    with hc'
  have hcF : (NetworkGrid.remove_node_clears gE x y z).cubeAt nid = some c' :=
    List.get?_eq_get hltF
  apply Faces.ext_of_get
  intro s
  by_cases hhit : g.get_node (determine_tx_pos p s.opposite) = some nid
  · have horig : c₀.ll_references.get s = none := by
      have hh := hrefs s.opposite nid c₀ hhit hcube
      rwa [Direction.opposite_opposite] at hh
    have hset := w5 s.opposite nid
      (by rw [hEq _ (determine_tx_pos_ne p s.opposite)]; exact hhit)
      (by rw [hlenE]; omega)
    rw [Direction.opposite_opposite] at hset
    rw [hcF] at hset
    simp only [Option.map_some'] at hset
    rw [Option.some.injEq] at hset
    rw [hset, horig]
  · have hkeep := NetworkGrid.remove_node_clears_slot_preserve gE x y z nid s
      (by rw [hEq _ (determine_tx_pos_ne p s.opposite)]; exact hhit)
    rw [hcF, hEcube nid, r5 nid hncid] at hkeep
    have hbody := m4 s nid hncid
      (by rw [hA1map]; exact hhit)
    have hchain : (some c').map (fun c => c.ll_references.get s)
        = (some c₀).map (fun c => c.ll_references.get s) := by
      rw [hkeep, hbody, s5 nid hlen_g, hcube]
    simpa using hchain

/-- The cube allocated at (1,0,0) in `twoNodeGrid` after wiring. -/
def twoNodeCube1 : RoutingCube Nat Unit :=
  { position := (1, 0, 0), id := 1
    faces := ⟨6, 7, 8, 9, 10, 11⟩
    ll_references := ⟨none, none, some 3, none, none, none⟩
    packets := [], data := (), stats := {} }

/-- Counterexample to C5 as stated ("for every grid state and every
position"): on `twoNodeGrid` the position (1,0,0) is already occupied;
performing `add_node` there and then `remove_node` there does NOT restore
cube 0's reference state — its EAST reference pointed at cube 1's west
face (heap id 8) before, and is absent afterwards. -/
theorem C5_counterexample :
    twoNodeGrid.get_node (1, 0, 0) = some 1 ∧
    (twoNodeGrid.cubeAt 0).map (fun c => c.ll_references.get .EAST)
      = some (some 8) ∧
    (((NetworkGrid.add_node idleHook () twoNodeGrid 1 0 0).remove_node
        1 0 0).cubeAt 0).map (fun c => c.ll_references.get .EAST)
      = some none := by
  decide

/-- Witness for the amended C5: adding then removing at the free position
(2,0,0) of `twoNodeGrid` leaves cube 1 — the western neighbour of
(2,0,0) — with exactly its original references. -/
theorem C5_witness :
    (twoNodeGrid.get_node (2, 0, 0) = none ∧
     twoNodeGrid.get_node (determine_tx_pos (2, 0, 0) .WEST) = some 1 ∧
     twoNodeGrid.cubeAt 1 = some twoNodeCube1 ∧
     twoNodeCube1.ll_references.get Direction.WEST.opposite = none) ∧
    ∃ c', ((NetworkGrid.add_node idleHook () twoNodeGrid 2 0 0).remove_node
        2 0 0).cubeAt 1 = some c'
      ∧ c'.ll_references = twoNodeCube1.ll_references := by
  have hrefs : ∀ (d' : Direction) (nid' : Nat) (c₀' : RoutingCube Nat Unit),
      twoNodeGrid.get_node (determine_tx_pos (2, 0, 0) d') = some nid' →
      twoNodeGrid.cubeAt nid' = some c₀' →
      c₀'.ll_references.get d'.opposite = none := by
    intro d' nid' c₀' hd' hc'
    cases d' with
    | WEST =>
      have h1 : twoNodeGrid.get_node (determine_tx_pos (2, 0, 0) .WEST)
          = some 1 := by decide
      obtain rfl : 1 = nid' := Option.some.inj (h1.symm.trans hd')
      have h2 : twoNodeGrid.cubeAt 1 = some twoNodeCube1 := by decide
      obtain rfl : twoNodeCube1 = c₀' := Option.some.inj (h2.symm.trans hc')
      decide
    | UP =>
      have h1 : twoNodeGrid.get_node (determine_tx_pos (2, 0, 0) .UP)
          = none := by decide
      exact Option.noConfusion (h1.symm.trans hd')
    | DOWN =>
      have h1 : twoNodeGrid.get_node (determine_tx_pos (2, 0, 0) .DOWN)
          = none := by decide
      exact Option.noConfusion (h1.symm.trans hd')
    | EAST =>
      have h1 : twoNodeGrid.get_node (determine_tx_pos (2, 0, 0) .EAST)
          = none := by decide
      exact Option.noConfusion (h1.symm.trans hd')
    | NORTH =>
      have h1 : twoNodeGrid.get_node (determine_tx_pos (2, 0, 0) .NORTH)
          = none := by decide
      exact Option.noConfusion (h1.symm.trans hd')
    | SOUTH =>
      have h1 : twoNodeGrid.get_node (determine_tx_pos (2, 0, 0) .SOUTH)
          = none := by decide
      exact Option.noConfusion (h1.symm.trans hd')
  exact ⟨⟨by decide, by decide, by decide, by decide⟩,
    C5_add_remove_restores idleHook () twoNodeGrid 2 0 0 .WEST 1
      twoNodeCube1 (by decide) hrefs (by decide) (by decide)⟩

/-- An observation grid for the recipe interpreter: `traceCmd` records
every grid command the interpreter executes, in order. -/
def traceCmd (g : List (RecipeComm × List Arg)) (c : RecipeComm)
    (a : List Arg) : List (RecipeComm × List Arg) :=
  g ++ [(c, a)]

/-- A one-command recipe: add a node at the origin. -/
def c7recipe : Recipe := Recipe.init [.ADDN] [[.int 0, .int 0, .int 0]]

/-- `c7recipe` as left by a PAUSE command: currently paused. -/
def c7paused : Recipe := { c7recipe with paused := true }

/-- C7 counterexample: `NetGridPresenter.run` unconditionally resumes the
recipe before entering its loop, so calling it with `ignore_pauses =
false` on a currently paused recipe still executes recipe commands — the
paused one-ADDN recipe executes its ADDN during the run — contradicting
the claim that a paused recipe executes nothing until `resume()` is
invoked. -/
theorem C7_counterexample :
    c7paused.paused = true ∧
    (NetGridPresenter.run traceCmd id (some c7paused) [] 3 false).2.1
      = [(.ADDN, [.int 0, .int 0, .int 0])] := by
  decide

/-- Unfolding equation for one iteration of `NetGridPresenter.runLoop`. -/
lemma runLoop_succ {γ : Type} (applyCmd : γ → RecipeComm → List Arg → γ)
    (gstep : γ → γ) (r : Recipe) (g : γ) (n : Nat) (ig : Bool) :
    NetGridPresenter.runLoop applyCmd gstep r g (n + 1) ig
      = if r.is_running then
          let rge := r.execute_next applyCmd g
          match rge.2.2 with
          | some e => (rge.1, rge.2.1, some e)
          | none =>
            NetGridPresenter.runLoop applyCmd gstep
              (if ig then rge.1.resume else rge.1) (gstep rge.2.1) n ig
        else (r, g, none) := rfl

/-- C7 (amended): behaviour of `NetGridPresenter.run` and its loop.
With no recipe, `run` does nothing and does not notify.  With a recipe,
`run` FIRST resumes it — the paused flag at call time is irrelevant, even
with `ignore_pauses` unset, which is where the original claim fails.  The
loop stops when the cycle budget hits zero or the recipe is not running
(finished or paused); while running, each iteration executes exactly one
recipe instruction and then one grid step, resuming the recipe again only
when `ignore_pauses` is set; an exception raised by `execute_next` aborts
the loop at once.  After the loop, observers are notified exactly once —
unless an exception propagated, which skips the notification. -/
theorem C7_run_amended {γ : Type} (applyCmd : γ → RecipeComm → List Arg → γ)
    (gstep : γ → γ) (g : γ) (n : Nat) (ig : Bool) (r : Recipe) :
    NetGridPresenter.run applyCmd gstep none g n ig = (none, g, 0, none) ∧
    NetGridPresenter.run applyCmd gstep (some r) g n ig
      = NetGridPresenter.run applyCmd gstep (some r.resume) g n ig ∧
    NetGridPresenter.runLoop applyCmd gstep r g 0 ig = (r, g, none) ∧
    (r.is_running = false →
      NetGridPresenter.runLoop applyCmd gstep r g (n + 1) ig = (r, g, none)) ∧
    (r.is_running = true → ∀ r1 g1,
      r.execute_next applyCmd g = (r1, g1, none) →
      NetGridPresenter.runLoop applyCmd gstep r g (n + 1) ig
        = NetGridPresenter.runLoop applyCmd gstep
            (if ig then r1.resume else r1) (gstep g1) n ig) ∧
    (r.is_running = true → ∀ r1 g1 e,
      r.execute_next applyCmd g = (r1, g1, some e) →
      NetGridPresenter.runLoop applyCmd gstep r g (n + 1) ig
        = (r1, g1, some e)) ∧
    (NetGridPresenter.run applyCmd gstep (some r) g n ig).2.2.1
      = (if (NetGridPresenter.run applyCmd gstep (some r) g n ig).2.2.2 = none
         then 1 else 0) := by
  refine ⟨rfl, rfl, rfl, ?_, ?_, ?_, ?_⟩
  · intro h
    rw [runLoop_succ, h]
    simp
  · intro h r1 g1 hex
    rw [runLoop_succ, h, if_pos rfl]
    dsimp only
    rw [hex]
  · intro h r1 g1 e hex
    rw [runLoop_succ, h, if_pos rfl]
    dsimp only
    rw [hex]
  · unfold NetGridPresenter.run
    dsimp only
    rcases hL : NetGridPresenter.runLoop applyCmd gstep r.resume g n ig
      with ⟨r1, g1, e⟩
    cases e <;> simp

/-- Witness for the amended C7 on the transcript grid: one loop iteration
of the one-ADDN recipe executes the ADDN and steps the grid, a finished
recipe stops the loop immediately, and a completed run notifies exactly
once. -/
theorem C7_witness :
    NetGridPresenter.runLoop traceCmd id c7recipe [] 2 false
      = NetGridPresenter.runLoop traceCmd id { c7recipe with idx := 1 }
          [(.ADDN, [.int 0, .int 0, .int 0])] 1 false ∧
    NetGridPresenter.runLoop traceCmd id { c7recipe with idx := 1 } [] 2 false
      = ({ c7recipe with idx := 1 }, [], none) ∧
    (NetGridPresenter.run traceCmd id (some c7recipe) [] 2 false).2.2.1 = 1 := by
  have h1 := C7_run_amended traceCmd id ([] : List (RecipeComm × List Arg))
    1 false c7recipe
  have h2 := C7_run_amended traceCmd id ([] : List (RecipeComm × List Arg))
    1 false { c7recipe with idx := 1 }
  have h3 := C7_run_amended traceCmd id ([] : List (RecipeComm × List Arg))
    2 false c7recipe
  refine ⟨?_, ?_, ?_⟩
  · exact h1.2.2.2.2.1 (by decide) { c7recipe with idx := 1 }
      [(.ADDN, [.int 0, .int 0, .int 0])] (by decide)
  · exact h2.2.2.2.1 (by decide)
  · rw [h3.2.2.2.2.2.2]
    decide

/-- Iterate `Recipe.execute_next` a given number of times, stopping (and
reporting the exception) as soon as one call raises. -/
def runRecipeN {γ : Type} (applyCmd : γ → RecipeComm → List Arg → γ) :
    Recipe → γ → Nat → Recipe × γ × Option String
  | r, g, 0 => (r, g, none)
  | r, g, k + 1 =>
    let rge := r.execute_next applyCmd g
    match rge.2.2 with
    | some e => (rge.1, rge.2.1, some e)
    | none => runRecipeN applyCmd rge.1 rge.2.1 k

/-- The four grid commands — ADDN, ADDR, RMVN, SEND — whose handlers act
only on the grid and leave the interpreter control state alone. -/
def RecipeComm.isGridComm : RecipeComm → Bool
  | .ADDN => true
  | .ADDR => true
  | .RMVN => true
  | .SEND => true
  | _ => false

/-- Apply a straight-line block of grid commands to the grid. -/
def applyBlock {γ : Type} (applyCmd : γ → RecipeComm → List Arg → γ)
    (B : List (RecipeComm × List Arg)) (g : γ) : γ :=
  B.foldl (fun g p => applyCmd g p.1 p.2) g

/-- Apply a block of grid commands to the grid `k` times over. -/
def bodyIter {γ : Type} (applyCmd : γ → RecipeComm → List Arg → γ)
    (B : List (RecipeComm × List Arg)) : Nat → γ → γ
  | 0, g => g
  | k + 1, g => bodyIter applyCmd B k (applyBlock applyCmd B g)

/-- `handle_comm` on a grid command with a valid argument count performs
the grid action and leaves the recipe state untouched. -/
lemma handle_comm_grid {γ : Type} (applyCmd : γ → RecipeComm → List Arg → γ)
    (r : Recipe) (g : γ) (c : RecipeComm) (a : List Arg)
    (hg : c.isGridComm = true) (hcnt : Recipe.check_arg_count c a = true) :
    Recipe.handle_comm applyCmd r g c a = (r, applyCmd g c a, none) := by
  unfold Recipe.handle_comm
  rw [hcnt, if_neg (not_not_intro rfl)]
  cases c with
  | ADDN => rfl
  | ADDR => rfl
  | RMVN => rfl
  | SEND => rfl
  | WAIT => exact absurd hg (by decide)
  | LOOP => exact absurd hg (by decide)
  | ENDL => exact absurd hg (by decide)
  | PAUSE => exact absurd hg (by decide)

/-- `handle_comm` on LOOP outside a loop records the loop entry point and
the remaining iteration count. -/
lemma handle_comm_loop_enter {γ : Type}
    (applyCmd : γ → RecipeComm → List Arg → γ) (r : Recipe) (g : γ) (i : Int)
    (hnl : r.in_loop = false) :
    Recipe.handle_comm applyCmd r g .LOOP [.int i]
      = ({ r with
            loop_idx := r.idx
            loop_iters_remaining := i
            in_loop := true }, g, none) := by
  have hcnt : Recipe.check_arg_count .LOOP [.int i] = true := rfl
  unfold Recipe.handle_comm
  rw [hcnt, if_neg (not_not_intro rfl)]
  dsimp only
  rw [hnl]
  simp

/-- `handle_comm` on LOOP inside a loop raises, touching nothing. -/
lemma handle_comm_loop_nested {γ : Type}
    (applyCmd : γ → RecipeComm → List Arg → γ) (r : Recipe) (g : γ) (i : Int)
    (hl : r.in_loop = true) :
    Recipe.handle_comm applyCmd r g .LOOP [.int i]
      = (r, g, some "RuntimeError: Nested loops in recipes not allowed") := by
  have hcnt : Recipe.check_arg_count .LOOP [.int i] = true := rfl
  unfold Recipe.handle_comm
  rw [hcnt, if_neg (not_not_intro rfl)]
  dsimp only
  rw [hl]
  simp

/-- `handle_comm` on ENDL with no iterations left closes the loop. -/
lemma handle_comm_endl_exit {γ : Type}
    (applyCmd : γ → RecipeComm → List Arg → γ) (r : Recipe) (g : γ)
    (hl : r.in_loop = true) (hz : r.loop_iters_remaining = 0) :
    Recipe.handle_comm applyCmd r g .ENDL []
      = ({ r with in_loop := false }, g, none) := by
  have hcnt : Recipe.check_arg_count .ENDL [] = true := rfl
  unfold Recipe.handle_comm
  rw [hcnt, if_neg (not_not_intro rfl)]
  dsimp only
  rw [hl]
  rw [if_neg (not_not_intro rfl), if_pos hz]

/-- `handle_comm` on ENDL with iterations left decrements the count and
jumps back to the LOOP command. -/
lemma handle_comm_endl_repeat {γ : Type}
    (applyCmd : γ → RecipeComm → List Arg → γ) (r : Recipe) (g : γ)
    (hl : r.in_loop = true) (hnz : r.loop_iters_remaining ≠ 0) :
    Recipe.handle_comm applyCmd r g .ENDL []
      = ({ r with
            loop_iters_remaining := r.loop_iters_remaining - 1
            idx := r.loop_idx }, g, none) := by
  have hcnt : Recipe.check_arg_count .ENDL [] = true := rfl
  unfold Recipe.handle_comm
  rw [hcnt, if_neg (not_not_intro rfl)]
  dsimp only
  rw [hl]
  rw [if_neg (not_not_intro rfl), if_neg hnz]

/-- `handle_comm` on ENDL outside a loop raises, touching nothing. -/
lemma handle_comm_endl_noloop {γ : Type}
    (applyCmd : γ → RecipeComm → List Arg → γ) (r : Recipe) (g : γ)
    (hl : r.in_loop = false) :
    Recipe.handle_comm applyCmd r g .ENDL []
      = (r, g,
         some "RuntimeError: Cannot end loop in recipe - no loop was started")
    := by
  have hcnt : Recipe.check_arg_count .ENDL [] = true := rfl
  unfold Recipe.handle_comm
  rw [hcnt, if_neg (not_not_intro rfl)]
  dsimp only
  rw [hl]
  simp

/-- `execute_next` on a running, non-waiting recipe whose current command
handles without raising: perform the handler's effect and advance `idx`. -/
lemma execute_next_of_handle {γ : Type}
    (applyCmd : γ → RecipeComm → List Arg → γ) (r : Recipe) (g : γ)
    (comm : RecipeComm) (args : List Arg) (r' : Recipe) (g' : γ)
    (hrun : r.is_running = true) (hwait : r.wait_cycles_remaining ≤ 0)
    (hc : r.commands.get? r.idx = some comm)
    (ha : r.command_args.get? r.idx = some args)
    (hh : Recipe.handle_comm applyCmd r g comm args = (r', g', none)) :
    Recipe.execute_next applyCmd r g
      = ({ r' with idx := r'.idx + 1 }, g', none) := by
  unfold Recipe.execute_next
  rw [hrun, if_pos rfl, if_neg (by omega), hc, ha]
  dsimp only
  rw [hh]

/-- `execute_next` on a running, non-waiting recipe whose current command
raises: report the exception without advancing `idx`. -/
lemma execute_next_of_handle_err {γ : Type}
    (applyCmd : γ → RecipeComm → List Arg → γ) (r : Recipe) (g : γ)
    (comm : RecipeComm) (args : List Arg) (r' : Recipe) (g' : γ) (e : String)
    (hrun : r.is_running = true) (hwait : r.wait_cycles_remaining ≤ 0)
    (hc : r.commands.get? r.idx = some comm)
    (ha : r.command_args.get? r.idx = some args)
    (hh : Recipe.handle_comm applyCmd r g comm args = (r', g', some e)) :
    Recipe.execute_next applyCmd r g = (r', g', some e) := by
  unfold Recipe.execute_next
  rw [hrun, if_pos rfl, if_neg (by omega), hc, ha]
  dsimp only
  rw [hh]

/-- `execute_next` on a grid command applies it to the grid and advances
`idx`, touching nothing else. -/
lemma execute_next_grid {γ : Type}
    (applyCmd : γ → RecipeComm → List Arg → γ) (r : Recipe) (g : γ)
    (c : RecipeComm) (a : List Arg)
    (hrun : r.is_running = true) (hwait : r.wait_cycles_remaining ≤ 0)
    (hc : r.commands.get? r.idx = some c)
    (ha : r.command_args.get? r.idx = some a)
    (hg : c.isGridComm = true) (hcnt : Recipe.check_arg_count c a = true) :
    Recipe.execute_next applyCmd r g
      = ({ r with idx := r.idx + 1 }, applyCmd g c a, none) :=
  execute_next_of_handle applyCmd r g c a r (applyCmd g c a) hrun hwait hc ha
    (handle_comm_grid applyCmd r g c a hg hcnt)

/-- `execute_next` on LOOP outside a loop: record the entry point and the
iteration count, and advance past the LOOP command. -/
lemma execute_next_loop_enter {γ : Type}
    (applyCmd : γ → RecipeComm → List Arg → γ) (r : Recipe) (g : γ) (i : Int)
    (hrun : r.is_running = true) (hwait : r.wait_cycles_remaining ≤ 0)
    (hc : r.commands.get? r.idx = some .LOOP)
    (ha : r.command_args.get? r.idx = some [.int i])
    (hnl : r.in_loop = false) :
    Recipe.execute_next applyCmd r g
      = ({ r with
            loop_idx := r.idx
            loop_iters_remaining := i
            in_loop := true
            idx := r.idx + 1 }, g, none) :=
  execute_next_of_handle applyCmd r g .LOOP [.int i] _ g hrun hwait hc ha
    (handle_comm_loop_enter applyCmd r g i hnl)

/-- `execute_next` on a nested LOOP raises and leaves recipe and grid
unchanged. -/
lemma execute_next_loop_nested {γ : Type}
    (applyCmd : γ → RecipeComm → List Arg → γ) (r : Recipe) (g : γ) (i : Int)
    (hrun : r.is_running = true) (hwait : r.wait_cycles_remaining ≤ 0)
    (hc : r.commands.get? r.idx = some .LOOP)
    (ha : r.command_args.get? r.idx = some [.int i])
    (hl : r.in_loop = true) :
    Recipe.execute_next applyCmd r g
      = (r, g, some "RuntimeError: Nested loops in recipes not allowed") :=
  execute_next_of_handle_err applyCmd r g .LOOP [.int i] r g _ hrun hwait hc ha
    (handle_comm_loop_nested applyCmd r g i hl)

/-- `execute_next` on ENDL with no iterations left closes the loop and
advances past the ENDL. -/
lemma execute_next_endl_exit {γ : Type}
    (applyCmd : γ → RecipeComm → List Arg → γ) (r : Recipe) (g : γ)
    (hrun : r.is_running = true) (hwait : r.wait_cycles_remaining ≤ 0)
    (hc : r.commands.get? r.idx = some .ENDL)
    (ha : r.command_args.get? r.idx = some [])
    (hl : r.in_loop = true) (hz : r.loop_iters_remaining = 0) :
    Recipe.execute_next applyCmd r g
      = ({ r with
            in_loop := false
            idx := r.idx + 1 }, g, none) :=
  execute_next_of_handle applyCmd r g .ENDL [] _ g hrun hwait hc ha
    (handle_comm_endl_exit applyCmd r g hl hz)

/-- `execute_next` on ENDL with iterations left decrements the count and
lands on the first command of the body (one past the LOOP). -/
lemma execute_next_endl_repeat {γ : Type}
    (applyCmd : γ → RecipeComm → List Arg → γ) (r : Recipe) (g : γ)
    (hrun : r.is_running = true) (hwait : r.wait_cycles_remaining ≤ 0)
    (hc : r.commands.get? r.idx = some .ENDL)
    (ha : r.command_args.get? r.idx = some [])
    (hl : r.in_loop = true) (hnz : r.loop_iters_remaining ≠ 0) :
    Recipe.execute_next applyCmd r g
      = ({ r with
            loop_iters_remaining := r.loop_iters_remaining - 1
            idx := r.loop_idx + 1 }, g, none) :=
  execute_next_of_handle applyCmd r g .ENDL [] _ g hrun hwait hc ha
    (handle_comm_endl_repeat applyCmd r g hl hnz)

/-- `execute_next` on ENDL outside a loop raises and leaves recipe and
grid unchanged. -/
lemma execute_next_endl_noloop {γ : Type}
    (applyCmd : γ → RecipeComm → List Arg → γ) (r : Recipe) (g : γ)
    (hrun : r.is_running = true) (hwait : r.wait_cycles_remaining ≤ 0)
    (hc : r.commands.get? r.idx = some .ENDL)
    (ha : r.command_args.get? r.idx = some [])
    (hl : r.in_loop = false) :
    Recipe.execute_next applyCmd r g
      = (r, g,
         some "RuntimeError: Cannot end loop in recipe - no loop was started")
    :=
  execute_next_of_handle_err applyCmd r g .ENDL [] r g _ hrun hwait hc ha
    (handle_comm_endl_noloop applyCmd r g hl)

/-- One non-raising step of `runRecipeN`. -/
lemma runRecipeN_succ_ok {γ : Type}
    (applyCmd : γ → RecipeComm → List Arg → γ) (r : Recipe) (g : γ) (k : Nat)
    (r' : Recipe) (g' : γ)
    (h : r.execute_next applyCmd g = (r', g', none)) :
    runRecipeN applyCmd r g (k + 1) = runRecipeN applyCmd r' g' k := by
  conv_lhs => unfold runRecipeN
  dsimp only
  rw [h]

/-- One raising step of `runRecipeN` stops the iteration. -/
lemma runRecipeN_succ_err {γ : Type}
    (applyCmd : γ → RecipeComm → List Arg → γ) (r : Recipe) (g : γ) (k : Nat)
    (r' : Recipe) (g' : γ) (e : String)
    (h : r.execute_next applyCmd g = (r', g', some e)) :
    runRecipeN applyCmd r g (k + 1) = (r', g', some e) := by
  unfold runRecipeN
  dsimp only
  rw [h]

/-- Composing `runRecipeN` runs: an error-free prefix of `m` steps
followed by `k` further steps. -/
lemma runRecipeN_add {γ : Type} (applyCmd : γ → RecipeComm → List Arg → γ) :
    ∀ (m k : Nat) (r : Recipe) (g : γ) (r' : Recipe) (g' : γ),
      runRecipeN applyCmd r g m = (r', g', none) →
      runRecipeN applyCmd r g (m + k) = runRecipeN applyCmd r' g' k := by
  intro m
  induction m with
  | zero =>
    intro k r g r' g' h
    have h' : (r, g, (none : Option String)) = (r', g', none) := h
    injection h' with h1 h23
    injection h23 with h2 h3
    subst h1
    subst h2
    rw [Nat.zero_add]
  | succ m ih =>
    intro k r g r' g' h
    rcases hstep : r.execute_next applyCmd g with ⟨r1, g1, e⟩
    cases e with
    | none =>
      rw [runRecipeN_succ_ok applyCmd r g m r1 g1 hstep] at h
      have harith : (m + 1) + k = (m + k) + 1 := by omega
      rw [harith, runRecipeN_succ_ok applyCmd r g (m + k) r1 g1 hstep]
      exact ih k r1 g1 r' g' h
    | some e =>
      rw [runRecipeN_succ_err applyCmd r g m r1 g1 e hstep] at h
      injection h with h1 h23
      injection h23 with h2 h3
      exact Option.noConfusion h3

/-- Executing a straight-line block of grid commands: `idx` advances by
the block length and the grid folds the block, one command per step. -/
lemma run_grid_block {γ : Type} (applyCmd : γ → RecipeComm → List Arg → γ)
    (B : List (RecipeComm × List Arg)) :
    ∀ (r : Recipe) (g : γ),
      r.paused = false →
      r.wait_cycles_remaining ≤ 0 →
      r.idx + B.length ≤ r.length →
      (∀ j c a, B.get? j = some (c, a) →
        r.commands.get? (r.idx + j) = some c ∧
        r.command_args.get? (r.idx + j) = some a ∧
        c.isGridComm = true ∧ Recipe.check_arg_count c a = true) →
      runRecipeN applyCmd r g B.length
        = ({ r with idx := r.idx + B.length },
           applyBlock applyCmd B g, none) := by
  induction B with
  | nil =>
    intro r g hp hw hlen hbody
    rfl
  | cons p B' ih =>
    obtain ⟨c0, a0⟩ := p
    intro r g hp hw hlen hbody
    simp only [List.length_cons] at hlen ⊢
    obtain ⟨hc0, ha0, hg0, hcnt0⟩ := hbody 0 c0 a0 rfl
    rw [Nat.add_zero] at hc0 ha0
    have hrun : r.is_running = true := by
      unfold Recipe.is_running
      rw [hp]
      simp only [Bool.not_false, Bool.and_true, decide_eq_true_eq]
      omega
    have hstep := execute_next_grid applyCmd r g c0 a0 hrun hw hc0 ha0 hg0 hcnt0
    rw [runRecipeN_succ_ok applyCmd r g B'.length _ _ hstep]
    have hres := ih { r with idx := r.idx + 1 } (applyCmd g c0 a0) hp hw
      (by dsimp only; omega)
      (by
        intro j c a hj
        have h3 := hbody (j + 1) c a hj
        have he : r.idx + (j + 1) = r.idx + 1 + j := by omega
        rw [he] at h3
        exact h3)
    rw [hres]
    dsimp only
    have he2 : r.idx + 1 + B'.length = r.idx + (B'.length + 1) := by omega
    rw [he2]
    rfl

/-- One full pass over a loop body sitting between a LOOP (at index `L`)
and its ENDL, starting from the top of the body: run the body commands,
then handle the ENDL — either jumping back with one fewer iteration, or
closing the loop when no iterations remain. -/
lemma loop_pass {γ : Type} (applyCmd : γ → RecipeComm → List Arg → γ)
    (B : List (RecipeComm × List Arg)) (L : Nat) (r : Recipe) (g : γ)
    (hp : r.paused = false) (hw : r.wait_cycles_remaining ≤ 0)
    (hidx : r.idx = L + 1) (hl : r.in_loop = true) (hlidx : r.loop_idx = L)
    (hlen : L + B.length + 2 ≤ r.length)
    (hbody : ∀ j c a, B.get? j = some (c, a) →
      r.commands.get? (L + 1 + j) = some c ∧
      r.command_args.get? (L + 1 + j) = some a ∧
      c.isGridComm = true ∧ Recipe.check_arg_count c a = true)
    (hec : r.commands.get? (L + 1 + B.length) = some .ENDL)
    (hea : r.command_args.get? (L + 1 + B.length) = some []) :
    (r.loop_iters_remaining ≠ 0 →
      runRecipeN applyCmd r g (B.length + 1)
        = ({ r with loop_iters_remaining := r.loop_iters_remaining - 1 },
           applyBlock applyCmd B g, none)) ∧
    (r.loop_iters_remaining = 0 →
      runRecipeN applyCmd r g (B.length + 1)
        = ({ r with
              in_loop := false
              idx := L + 1 + B.length + 1 },
           applyBlock applyCmd B g, none)) := by
  have hblock := run_grid_block applyCmd B r g hp hw
    (by omega) (by rw [hidx]; exact hbody)
  have hrun1 : ({ r with idx := r.idx + B.length } : Recipe).is_running
      = true := by
    unfold Recipe.is_running
    dsimp only
    rw [hp]
    simp only [Bool.not_false, Bool.and_true, decide_eq_true_eq]
    omega
  have hc1 : ({ r with idx := r.idx + B.length } : Recipe).commands.get?
      ({ r with idx := r.idx + B.length } : Recipe).idx
      = some RecipeComm.ENDL := by
    dsimp only
    rw [hidx]
    exact hec
  have ha1 : ({ r with idx := r.idx + B.length } : Recipe).command_args.get?
      ({ r with idx := r.idx + B.length } : Recipe).idx = some [] := by
    dsimp only
    rw [hidx]
    exact hea
  constructor
  · intro hnz
    have hstep := execute_next_endl_repeat applyCmd
      { r with idx := r.idx + B.length } (applyBlock applyCmd B g)
      hrun1 hw hc1 ha1 hl hnz
    have h1 := runRecipeN_add applyCmd B.length 1 r g _ _ hblock
    have h2 := runRecipeN_succ_ok applyCmd
      { r with idx := r.idx + B.length } (applyBlock applyCmd B g) 0 _ _ hstep
    rw [h1, h2]
    cases r with
    | mk cs as idx len wcr lir lidx il pz =>
      dsimp only at hidx hlidx ⊢
      subst hidx
      subst hlidx
      rfl
  · intro hz
    have hstep := execute_next_endl_exit applyCmd
      { r with idx := r.idx + B.length } (applyBlock applyCmd B g)
      hrun1 hw hc1 ha1 hl hz
    have h1 := runRecipeN_add applyCmd B.length 1 r g _ _ hblock
    have h2 := runRecipeN_succ_ok applyCmd
      { r with idx := r.idx + B.length } (applyBlock applyCmd B g) 0 _ _ hstep
    rw [h1, h2]
    cases r with
    | mk cs as idx len wcr lir lidx il pz =>
      dsimp only at hidx ⊢
      subst hidx
      rfl

/-- A loop with `m` iterations left on its counter, standing at the top
of its body, runs the body `m + 1` more times and closes: `(m+1)·(|B|+1)`
interpreter steps later the loop flag is cleared and `idx` sits one past
the ENDL. -/
lemma loop_iterate {γ : Type} (applyCmd : γ → RecipeComm → List Arg → γ)
    (B : List (RecipeComm × List Arg)) (L : Nat) :
    ∀ (m : Nat) (r : Recipe) (g : γ),
      r.paused = false → r.wait_cycles_remaining ≤ 0 →
      r.idx = L + 1 → r.in_loop = true → r.loop_idx = L →
      r.loop_iters_remaining = (m : Int) →
      L + B.length + 2 ≤ r.length →
      (∀ j c a, B.get? j = some (c, a) →
        r.commands.get? (L + 1 + j) = some c ∧
        r.command_args.get? (L + 1 + j) = some a ∧
        c.isGridComm = true ∧ Recipe.check_arg_count c a = true) →
      r.commands.get? (L + 1 + B.length) = some .ENDL →
      r.command_args.get? (L + 1 + B.length) = some [] →
      runRecipeN applyCmd r g ((m + 1) * (B.length + 1))
        = ({ r with
              loop_iters_remaining := 0
              in_loop := false
              idx := L + 1 + B.length + 1 },
           bodyIter applyCmd B (m + 1) g, none) := by
  intro m
  induction m with
  | zero =>
    intro r g hp hw hidx hl hlidx hit hlen hbody hec hea
    have hit0 : r.loop_iters_remaining = 0 := by
      rw [hit]
      norm_num
    have hpass := (loop_pass applyCmd B L r g hp hw hidx hl hlidx hlen hbody
      hec hea).2 hit0
    have harith : (0 + 1) * (B.length + 1) = B.length + 1 := by ring
    rw [harith, hpass]
    cases r with
    | mk cs as idx len wcr lir lidx il pz =>
      dsimp only at hit0 ⊢
      subst hit0
      rfl
  | succ m ih =>
    intro r g hp hw hidx hl hlidx hit hlen hbody hec hea
    have hnz : r.loop_iters_remaining ≠ 0 := by
      rw [hit]
      exact_mod_cast Nat.succ_ne_zero m
    have hpass := (loop_pass applyCmd B L r g hp hw hidx hl hlidx hlen hbody
      hec hea).1 hnz
    have harith : (m + 1 + 1) * (B.length + 1)
        = (B.length + 1) + (m + 1) * (B.length + 1) := by ring
    rw [harith, runRecipeN_add applyCmd (B.length + 1)
        ((m + 1) * (B.length + 1)) r g _ _ hpass]
    have hit' : ({ r with
        loop_iters_remaining := r.loop_iters_remaining - 1 }
        : Recipe).loop_iters_remaining = (m : Int) := by
      dsimp only
      rw [hit]
      push_cast
      ring
    rw [ih { r with loop_iters_remaining := r.loop_iters_remaining - 1 }
      (applyBlock applyCmd B g) hp hw hidx hl hlidx hit' hlen hbody hec hea]
    rfl

/-- A loop with a negative iteration count never exits: after each of `k`
full passes the interpreter is back at the top of the body, with the
count lowered by `k` and the body applied `k` times over. -/
lemma loop_iterate_neg {γ : Type} (applyCmd : γ → RecipeComm → List Arg → γ)
    (B : List (RecipeComm × List Arg)) (L : Nat) :
    ∀ (k : Nat) (r : Recipe) (g : γ),
      r.paused = false → r.wait_cycles_remaining ≤ 0 →
      r.idx = L + 1 → r.in_loop = true → r.loop_idx = L →
      r.loop_iters_remaining < 0 →
      L + B.length + 2 ≤ r.length →
      (∀ j c a, B.get? j = some (c, a) →
        r.commands.get? (L + 1 + j) = some c ∧
        r.command_args.get? (L + 1 + j) = some a ∧
        c.isGridComm = true ∧ Recipe.check_arg_count c a = true) →
      r.commands.get? (L + 1 + B.length) = some .ENDL →
      r.command_args.get? (L + 1 + B.length) = some [] →
      runRecipeN applyCmd r g (k * (B.length + 1))
        = ({ r with loop_iters_remaining := r.loop_iters_remaining - k },
           bodyIter applyCmd B k g, none) := by
  intro k
  induction k with
  | zero =>
    intro r g hp hw hidx hl hlidx hneg hlen hbody hec hea
    simp only [Nat.zero_mul, Nat.cast_zero, sub_zero, runRecipeN, bodyIter]
  | succ k ih =>
    intro r g hp hw hidx hl hlidx hneg hlen hbody hec hea
    have hnz : r.loop_iters_remaining ≠ 0 := by omega
    have hpass := (loop_pass applyCmd B L r g hp hw hidx hl hlidx hlen hbody
      hec hea).1 hnz
    have harith : (k + 1) * (B.length + 1)
        = (B.length + 1) + k * (B.length + 1) := by ring
    rw [harith, runRecipeN_add applyCmd (B.length + 1) (k * (B.length + 1))
        r g _ _ hpass]
    have hneg' : ({ r with
        loop_iters_remaining := r.loop_iters_remaining - 1 }
        : Recipe).loop_iters_remaining < 0 := by
      dsimp only
      omega
    rw [ih { r with loop_iters_remaining := r.loop_iters_remaining - 1 }
      (applyBlock applyCmd B g) hp hw hidx hl hlidx hneg' hlen hbody hec hea]
    dsimp only
    have hval : r.loop_iters_remaining - 1 - (k : Int)
        = r.loop_iters_remaining - ((k + 1 : Nat) : Int) := by
      push_cast
      ring
    rw [hval]
    rfl

/-- C8: loop semantics of the recipe interpreter, for loops whose body is
a straight line of grid commands.  (i) `LOOP n` with n ≥ 0 runs the body
exactly n+1 times: after `1 + (n+1)·(|B|+1)` interpreter steps the grid
has the body applied n+1 times over, the loop flag is cleared and `idx`
sits one past the ENDL.  (ii) A negative LOOP argument loops forever: for
every k, the LOOP step plus k full passes leave the interpreter back at
the top of the body with the counter lowered by k — the counter never
reaches 0, so the ENDL never closes the loop.  (iii) Executing LOOP while
a loop is already active raises a RuntimeError and leaves recipe and grid
untouched.  (iv) Executing ENDL with no active loop raises a RuntimeError
and leaves recipe and grid untouched. -/
theorem C8_loop_semantics {γ : Type}
    (applyCmd : γ → RecipeComm → List Arg → γ) :
    (∀ (r : Recipe) (g : γ) (B : List (RecipeComm × List Arg)) (L n : Nat),
      r.paused = false → r.wait_cycles_remaining ≤ 0 →
      r.idx = L → r.in_loop = false →
      L + B.length + 2 ≤ r.length →
      r.commands.get? L = some .LOOP →
      r.command_args.get? L = some [.int (n : Int)] →
      (∀ j c a, B.get? j = some (c, a) →
        r.commands.get? (L + 1 + j) = some c ∧
        r.command_args.get? (L + 1 + j) = some a ∧
        c.isGridComm = true ∧ Recipe.check_arg_count c a = true) →
      r.commands.get? (L + 1 + B.length) = some .ENDL →
      r.command_args.get? (L + 1 + B.length) = some [] →
      runRecipeN applyCmd r g (1 + (n + 1) * (B.length + 1))
        = ({ r with
              idx := L + 1 + B.length + 1
              loop_idx := L
              loop_iters_remaining := 0
              in_loop := false },
           bodyIter applyCmd B (n + 1) g, none)) ∧
    (∀ (r : Recipe) (g : γ) (B : List (RecipeComm × List Arg)) (L : Nat)
        (t : Int) (k : Nat),
      r.paused = false → r.wait_cycles_remaining ≤ 0 →
      r.idx = L → r.in_loop = false → t < 0 →
      L + B.length + 2 ≤ r.length →
      r.commands.get? L = some .LOOP →
      r.command_args.get? L = some [.int t] →
      (∀ j c a, B.get? j = some (c, a) →
        r.commands.get? (L + 1 + j) = some c ∧
        r.command_args.get? (L + 1 + j) = some a ∧
        c.isGridComm = true ∧ Recipe.check_arg_count c a = true) →
      r.commands.get? (L + 1 + B.length) = some .ENDL →
      r.command_args.get? (L + 1 + B.length) = some [] →
      runRecipeN applyCmd r g (1 + k * (B.length + 1))
        = ({ r with
              idx := L + 1
              loop_idx := L
              loop_iters_remaining := t - k
              in_loop := true },
           bodyIter applyCmd B k g, none)) ∧
    (∀ (r : Recipe) (g : γ) (i : Int),
      r.is_running = true → r.wait_cycles_remaining ≤ 0 →
      r.in_loop = true →
      r.commands.get? r.idx = some .LOOP →
      r.command_args.get? r.idx = some [.int i] →
      Recipe.execute_next applyCmd r g
        = (r, g, some "RuntimeError: Nested loops in recipes not allowed")) ∧
    (∀ (r : Recipe) (g : γ),
      r.is_running = true → r.wait_cycles_remaining ≤ 0 →
      r.in_loop = false →
      r.commands.get? r.idx = some .ENDL →
      r.command_args.get? r.idx = some [] →
      Recipe.execute_next applyCmd r g
        = (r, g,
           some "RuntimeError: Cannot end loop in recipe - no loop was started"))
    := by
  refine ⟨?_, ?_, ?_, ?_⟩
  · intro r g B L n hp hw hidx hnl hlen hc ha hbody hec hea
    subst hidx
    have hrun : r.is_running = true := by
      unfold Recipe.is_running
      rw [hp]
      simp only [Bool.not_false, Bool.and_true, decide_eq_true_eq]
      omega
    have hstep := execute_next_loop_enter applyCmd r g (n : Int)
      hrun hw hc ha hnl
    have h1 : runRecipeN applyCmd r g 1
        = ({ r with
              loop_idx := r.idx
              loop_iters_remaining := (n : Int)
              in_loop := true
              idx := r.idx + 1 }, g, none) :=
      runRecipeN_succ_ok applyCmd r g 0 _ _ hstep
    rw [runRecipeN_add applyCmd 1 ((n + 1) * (B.length + 1)) r g _ _ h1]
    rw [loop_iterate applyCmd B r.idx n
      { r with
          loop_idx := r.idx
          loop_iters_remaining := (n : Int)
          in_loop := true
          idx := r.idx + 1 } g hp hw rfl rfl rfl rfl hlen hbody hec hea]
  · intro r g B L t k hp hw hidx hnl hneg hlen hc ha hbody hec hea
    subst hidx
    have hrun : r.is_running = true := by
      unfold Recipe.is_running
      rw [hp]
      simp only [Bool.not_false, Bool.and_true, decide_eq_true_eq]
      omega
    have hstep := execute_next_loop_enter applyCmd r g t hrun hw hc ha hnl
    have h1 : runRecipeN applyCmd r g 1
        = ({ r with
              loop_idx := r.idx
              loop_iters_remaining := t
              in_loop := true
              idx := r.idx + 1 }, g, none) :=
      runRecipeN_succ_ok applyCmd r g 0 _ _ hstep
    rw [runRecipeN_add applyCmd 1 (k * (B.length + 1)) r g _ _ h1]
    rw [loop_iterate_neg applyCmd B r.idx k
      { r with
          loop_idx := r.idx
          loop_iters_remaining := t
          in_loop := true
          idx := r.idx + 1 } g hp hw rfl rfl rfl hneg hlen hbody hec hea]
  · intro r g i hrun hw hl hc ha
    exact execute_next_loop_nested applyCmd r g i hrun hw hc ha hl
  · intro r g hrun hw hl hc ha
    exact execute_next_endl_noloop applyCmd r g hrun hw hc ha hl

/-- The LOOP walkthrough recipe of the simulation-file format: add a
node, then LOOP 2 — three passes — over an add/remove pair, then the
matching ENDL. -/
def c8recipe : Recipe :=
  Recipe.init
    [.ADDN, .LOOP, .ADDN, .RMVN, .ENDL]
    [[.int 0, .int 0, .int 0], [.int 2], [.int 1, .int 0, .int 0],
     [.int 1, .int 0, .int 0], []]

/-- The loop body of `c8recipe`. -/
def c8body : List (RecipeComm × List Arg) :=
  [(.ADDN, [.int 1, .int 0, .int 0]), (.RMVN, [.int 1, .int 0, .int 0])]

/-- Witness for C8: in `c8recipe`, standing on the LOOP 2 at index 1, the
interpreter takes 1 + 3·3 = 10 steps to run the two-command body exactly
three times, ending one past the ENDL (index 5) with the loop closed and
the three add/remove pairs on the transcript. -/
theorem C8_witness :
    runRecipeN traceCmd { c8recipe with idx := 1 } [] 10
      = ({ c8recipe with
            idx := 5
            loop_idx := 1
            loop_iters_remaining := 0
            in_loop := false },
         bodyIter traceCmd c8body 3 [], none) := by
  have hbody : ∀ j c a, c8body.get? j = some (c, a) →
      ({ c8recipe with idx := 1 } : Recipe).commands.get? (1 + 1 + j)
        = some c ∧
      ({ c8recipe with idx := 1 } : Recipe).command_args.get? (1 + 1 + j)
        = some a ∧
      c.isGridComm = true ∧ Recipe.check_arg_count c a = true := by
    intro j c a h
    rcases j with _ | (_ | j)
    · injection h with h1
      injection h1 with hc2 ha2
      subst hc2
      subst ha2
      exact ⟨rfl, rfl, rfl, rfl⟩
    · injection h with h1
      injection h1 with hc2 ha2
      subst hc2
      subst ha2
      exact ⟨rfl, rfl, rfl, rfl⟩
    · exact Option.noConfusion h
  exact (C8_loop_semantics traceCmd).1 { c8recipe with idx := 1 } [] c8body
    1 2 rfl (by decide) rfl rfl (by decide) rfl rfl hbody rfl rfl

end NetSim
